import Mathlib

/-!
Verification development for the Hack VM translator (`hack_vm.py`).

The development shallowly embeds the translator: the line parser
(`HackParser`), the assembly code generator (`HackCodeGenerator`), the
per-program assembler (`ParseProgram` / `AssembleProgram`) and the linker
(`LinkPrograms`).  Python strings are modelled by `String`, Python lists by
`List`, machine words by `Int`; a Python function that can raise an
exception returns an `Option` (with `none` for the raised exception), and
`VMError` failures are modelled by `Except String`.

On top of the embedding, a small arithmetic simulator for the generated
Hack assembly is defined (`Asm`, `step`, `execList`, `run`) together with a
rendering function `render` that maps the simulated instructions back to
the exact strings the generator produces.
-/

namespace HackVM

/-- The Hack VM command variants (the `AddCommand` … `ErrorCommand` classes of
`hack_vm.py`). -/
inductive Command where
  | add | sub | neg | eq | gt | lt | and | or | not
  | push (segment : String) (index : Nat)
  | pop (segment : String) (index : Nat)
  | label (labelName : String)
  | goto (labelName : String)
  | ifGoto (labelName : String)
  | function (functionName : String) (localVariables : Nat)
  | call (functionName : String) (arguments : Nat)
  | ret
  | empty
  | error (line : String)
  deriving DecidableEq

/-- Characters of a line up to the first occurrence of `//`
(Python `line[:line.index("//")]`, the whole line when there is none). -/
def cutComment : List Char → List Char
  | [] => []
  | '/' :: '/' :: _ => []
  | c :: rest => c :: cutComment rest

/-- Python `str.strip()`: drop whitespace at both ends. -/
def stripChars (l : List Char) : List Char :=
  ((l.dropWhile Char.isWhitespace).reverse.dropWhile Char.isWhitespace).reverse

/-- `HackParser._TrimProgramLine`: cut a trailing `//` comment, then strip
surrounding whitespace. -/
def TrimProgramLine (line : String) : String :=
  ⟨stripChars (cutComment line.data)⟩

/-- Helper for `tokens` (Python `str.split()` with no argument): the
accumulator holds the characters of the current word, reversed. -/
def splitAux : List Char → List Char → List String
  | [], acc => if acc.isEmpty then [] else [⟨acc.reverse⟩]
  | c :: rest, acc =>
    if c.isWhitespace then
      if acc.isEmpty then splitAux rest [] else ⟨acc.reverse⟩ :: splitAux rest []
    else splitAux rest (c :: acc)

/-- Python `line.split()`: whitespace-delimited tokens, empties discarded. -/
def tokens (line : String) : List String := splitAux line.data []

/-- Python `str.isdigit()` on a byte string: nonempty and all ASCII digits. -/
def pyIsDigit (s : String) : Bool :=
  match s.data with
  | [] => false
  | l => l.all Char.isDigit

/-- A character matching the start class `[a-zA-Z_.:]` of `HackParser._RE_LABEL`. -/
def isLabelStart (c : Char) : Bool := c.isAlpha || c = '_' || c = '.' || c = ':'

/-- Python `re.match(HackParser._RE_LABEL, s)`: `re.match` anchors only at the
start, and the tail of the pattern is starred, so a match exists exactly when
the first character of `s` lies in the start class. -/
def reMatchLabel (s : String) : Bool :=
  match s.data with
  | [] => false
  | c :: _ => isLabelStart c

/-- Python `re.match(HackParser._RE_NUMBER, s)` where `_RE_NUMBER = \d+`:
a match exists exactly when `s` starts with a digit. -/
def reMatchNumber (s : String) : Bool :=
  match s.data with
  | [] => false
  | c :: _ => c.isDigit

/-- Numeric value of a digit string (the value Python `int` computes). -/
def digitsVal (l : List Char) : Nat := l.foldl (fun a c => 10 * a + (c.toNat - 48)) 0

/-- Python `int(s)` applied to a token produced by `split()` (hence free of
signs and whitespace): succeeds exactly when `s` is a nonempty digit string,
and raises `ValueError` (modelled by `none`) otherwise. -/
def pyInt (s : String) : Option Nat :=
  match s.data with
  | [] => none
  | l => if l.all Char.isDigit then some (digitsVal l) else none

/-- `HackParser._SEGMENT_NAMES`. -/
def SEGMENT_NAMES : List String :=
  ["argument", "local", "static", "constant", "this", "that", "pointer", "temp"]

/-- `HackParser._ParseSimpleCommand`. -/
def ParseSimpleCommand (line commandName : String) (ctor : Command) : Option Command :=
  if line = commandName then some ctor else none

/-- `HackParser.ParseAddCommand`. -/
def ParseAddCommand (line : String) : Option Command := ParseSimpleCommand line "add" .add

/-- `HackParser.ParseSubCommand`. -/
def ParseSubCommand (line : String) : Option Command := ParseSimpleCommand line "sub" .sub

/-- `HackParser.ParseNegCommand`. -/
def ParseNegCommand (line : String) : Option Command := ParseSimpleCommand line "neg" .neg

/-- `HackParser.ParseEqCommand`. -/
def ParseEqCommand (line : String) : Option Command := ParseSimpleCommand line "eq" .eq

/-- `HackParser.ParseGtCommand`. -/
def ParseGtCommand (line : String) : Option Command := ParseSimpleCommand line "gt" .gt

/-- `HackParser.ParseLtCommand`. -/
def ParseLtCommand (line : String) : Option Command := ParseSimpleCommand line "lt" .lt

/-- `HackParser.ParseAndCommand`. -/
def ParseAndCommand (line : String) : Option Command := ParseSimpleCommand line "and" .and

/-- `HackParser.ParseOrCommand`. -/
def ParseOrCommand (line : String) : Option Command := ParseSimpleCommand line "or" .or

/-- `HackParser.ParseNotCommand`. -/
def ParseNotCommand (line : String) : Option Command := ParseSimpleCommand line "not" .not

/-- `HackParser.ParsePushCommand`. -/
def ParsePushCommand (line : String) : Option Command :=
  match tokens line with
  | [p0, p1, p2] =>
    if p0 = "push" ∧ p1 ∈ SEGMENT_NAMES ∧ pyIsDigit p2 then
      some (.push p1 (digitsVal p2.data))
    else none
  | _ => none

/-- `HackParser.ParsePopCommand`. -/
def ParsePopCommand (line : String) : Option Command :=
  match tokens line with
  | [p0, p1, p2] =>
    if p0 = "pop" ∧ p1 ∈ SEGMENT_NAMES ∧ p1 ≠ "constant" ∧ pyIsDigit p2 then
      some (.pop p1 (digitsVal p2.data))
    else none
  | _ => none

/-- `HackParser._ParseGenericLabelCommand`. -/
def ParseGenericLabelCommand (line commandName : String) (ctor : String → Command) :
    Option Command :=
  match tokens line with
  | [p0, p1] =>
    if p0 = commandName ∧ reMatchLabel p1 then some (ctor p1) else none
  | _ => none

/-- `HackParser.ParseLabelCommand`. -/
def ParseLabelCommand (line : String) : Option Command :=
  ParseGenericLabelCommand line "label" .label

/-- `HackParser.ParseGotoCommand`. -/
def ParseGotoCommand (line : String) : Option Command :=
  ParseGenericLabelCommand line "goto" .goto

/-- `HackParser.ParseIfGotoCommand`. -/
def ParseIfGotoCommand (line : String) : Option Command :=
  ParseGenericLabelCommand line "if-goto" .ifGoto

/-- `HackParser._ParseGenericFunctionCommand`.  The outer `none` models the
`ValueError` raised by `int(parts[2])` when the third token merely *starts*
with a digit (matching `_RE_NUMBER` as a prefix) but is not all digits; the
inner `none` models the Python `False` return. -/
def ParseGenericFunctionCommand (line commandName : String) (ctor : String → Nat → Command) :
    Option (Option Command) :=
  match tokens line with
  | [p0, p1, p2] =>
    if p0 = commandName ∧ reMatchLabel p1 ∧ reMatchNumber p2 then
      match pyInt p2 with
      | some k => some (some (ctor p1 k))
      | none => none
    else some none
  | _ => some none

/-- `HackParser.ParseFunctionCommand`. -/
def ParseFunctionCommand (line : String) : Option (Option Command) :=
  ParseGenericFunctionCommand line "function" .function

/-- `HackParser.ParseCallCommand`. -/
def ParseCallCommand (line : String) : Option (Option Command) :=
  ParseGenericFunctionCommand line "call" .call

/-- `HackParser.ParseReturnCommand`. -/
def ParseReturnCommand (line : String) : Option Command :=
  if line = "return" then some .ret else none

/-- `HackParser.ParseEmptyCommand`. -/
def ParseEmptyCommand (line : String) : Option Command :=
  ParseSimpleCommand line "" .empty

/-- `HackParser.ParseErrorCommand`: always succeeds, carrying its input (the
already-trimmed line). -/
def ParseErrorCommand (line : String) : Command := .error line

/-- First success among an ordered list of grammar attempts (the loop body of
`HackParser.ParseCommand` over `_COMMAND_PARSE_ORDER`). -/
def tryAll : List (String → Option Command) → String → Option Command
  | [], _ => none
  | p :: ps, l =>
    match p l with
    | some c => some c
    | none => tryAll ps l

/-- `HackParser.ParseCommand`: trim the line, then attempt every grammar in
the order of `_COMMAND_PARSE_ORDER`, returning the first success.  The result
is `none` exactly when the Python code raises an exception (`ValueError` from
`int` inside the function/call grammar). -/
def ParseCommand (line : String) : Option Command :=
  let l := TrimProgramLine line
  match tryAll [ParseAddCommand, ParseSubCommand, ParseNegCommand, ParseEqCommand,
      ParseGtCommand, ParseLtCommand, ParseAndCommand, ParseOrCommand, ParseNotCommand,
      ParsePushCommand, ParsePopCommand, ParseLabelCommand, ParseGotoCommand,
      ParseIfGotoCommand] l with
  | some c => some c
  | none =>
    match ParseFunctionCommand l with
    | none => none
    | some (some c) => some c
    | some none =>
      match ParseCallCommand l with
      | none => none
      | some (some c) => some c
      | some none =>
        match tryAll [ParseReturnCommand, ParseEmptyCommand] l with
        | some c => some c
        | none => some (ParseErrorCommand l)

example : ParseCommand "push constant 13" = some (.push "constant" 13) := by decide
example : ParseCommand "pop local 42" = some (.pop "local" 42) := by decide
example : ParseCommand "   pop  foo 2  //I like pie!" = some (.error "pop  foo 2") := by decide
example : ParseCommand "  add // x" = some .add := by decide
example : ParseCommand "" = some .empty := by decide
example : ParseCommand "function f 3" = some (.function "f" 3) := by decide
example : ParseCommand "call f 1x" = none := by decide
example : ParseCommand "label foo-bar" = some (.label "foo-bar") := by decide
example : ParseCommand "label 9x" = some (.error "label 9x") := by decide

/-- `HackCodeGenerator._SEGMENT_MAPPING` (a dict in the source; only the eight
listed keys are ever looked up, so the default branch is never reached). -/
def SEGMENT_MAPPING : String → Nat
  | "sp" => 0
  | "temp" => 5
  | "pointer" => 3
  | "argument" => 2
  | "local" => 1
  | "this" => 3
  | "that" => 4
  | "static" => 16
  | _ => 0

/-- `HackCodeGenerator._ApplyBinaryTemplate`. -/
def ApplyBinaryTemplate (op : String) : List String :=
  ["@SP", "M=M-1", "A=M", "D=M", "A=A-1",
   if op ≠ "-" then "M=D" ++ op ++ "M" else "M=M-D"]

/-- `HackCodeGenerator._ApplyUnaryTemplate`. -/
def ApplyUnaryTemplate (op : String) : List String :=
  ["@SP", "A=M", "A=A-1", "M=" ++ op ++ "M"]

/-- `HackCodeGenerator._ApplyComparisonTemplate`. -/
def ApplyComparisonTemplate (op name : String) (number : Nat) : List String :=
  let branchLabel := name ++ "$" ++ toString number ++ "$branch"
  let endLabel := name ++ "$" ++ toString number ++ "$end"
  ["@SP", "M=M-1", "A=M", "D=M", "A=A-1", "D=D-M",
   "@" ++ branchLabel, "D;" ++ op,
   "@SP", "A=M-1", "M=0",
   "@" ++ endLabel, "0;JMP",
   "(" ++ branchLabel ++ ")",
   "@SP", "A=M-1", "M=0", "M=!M",
   "(" ++ endLabel ++ ")"]

/-- `HackCodeGenerator._ApplyPushTemplate`. -/
def ApplyPushTemplate : List String :=
  ["@SP", "A=M", "M=D", "@SP", "M=M+1"]

/-- `HackCodeGenerator._ApplyPushConstantTemplate`. -/
def ApplyPushConstantTemplate (value : Nat) : List String :=
  ["@" ++ toString value, "D=A"] ++ ApplyPushTemplate

/-- `HackCodeGenerator._ApplyPushDirectTemplate` (the Python code passes either
an int or a string; int call sites below pass `toString` of the int, matching
`"@" + str(value)`). -/
def ApplyPushDirectTemplate (value : String) : List String :=
  ["@" ++ value, "D=M"] ++ ApplyPushTemplate

/-- `HackCodeGenerator._ApplyPushIndirectTemplate`. -/
def ApplyPushIndirectTemplate (segmentBase index : Nat) : List String :=
  ["@" ++ toString segmentBase, "D=M", "@" ++ toString index, "A=D+A", "D=M"]
    ++ ApplyPushTemplate

/-- `HackCodeGenerator._ApplyPopDirectTemplate`. -/
def ApplyPopDirectTemplate (value : String) : List String :=
  ["@SP", "M=M-1", "A=M", "D=M", "@" ++ value, "M=D"]

/-- `HackCodeGenerator._ApplyPopIndirectTemplate`. -/
def ApplyPopIndirectTemplate (segmentBase index : Nat) : List String :=
  ["@" ++ toString segmentBase, "D=M", "@" ++ toString index, "D=D+A",
   "@13", "M=D",
   "@SP", "M=M-1", "A=M", "D=M",
   "@13", "A=M", "M=D"]

/-- `HackCodeGenerator._FromMemoryToD` (always called with an int address). -/
def FromMemoryToD (address : Nat) : List String :=
  ["@" ++ toString address, "D=M"]

/-- `HackCodeGenerator._FromMemoryDToD`. -/
def FromMemoryDToD : List String :=
  ["A=D", "D=M"]

/-- `HackCodeGenerator._FromDToMemory` (always called with an int address). -/
def FromDToMemory (address : Nat) : List String :=
  ["@" ++ toString address, "M=D"]

/-- `HackCodeGenerator._FromDToMemoryIndirect`. -/
def FromDToMemoryIndirect (address : Nat) : List String :=
  ["@" ++ toString address, "A=M", "M=D"]

/-- `HackCodeGenerator._FromMemoryToMemory`. -/
def FromMemoryToMemory (fromAddress toAddress : Nat) : List String :=
  FromMemoryToD fromAddress ++ FromDToMemory toAddress

/-- `HackCodeGenerator._AddConstantToD`. -/
def AddConstantToD (constant : Int) : List String :=
  if constant < 0 then ["@" ++ toString (-constant), "D=D-A"]
  else ["@" ++ toString constant, "D=D+A"]

/-- `HackCodeGenerator._PopToD`. -/
def PopToD : List String :=
  ["@SP", "M=M-1", "A=M", "D=M"]

/-- `HackCodeGenerator._PushConstant` (the Python code passes either an int or
a return-address label string; the one int call site passes `toString 0`). -/
def PushConstant (constant : String) : List String :=
  ["@" ++ constant, "D=A", "@SP", "M=M+1", "A=M-1", "M=D"]

/-- `HackCodeGenerator._PushFromMemory`. -/
def PushFromMemory (address : Nat) : List String :=
  FromMemoryToD address ++ ["@SP", "M=M+1", "A=M-1", "M=D"]

/-- `HackCodeGenerator._CreateLabel`. -/
def CreateLabel (labelName : String) : List String :=
  ["(" ++ labelName ++ ")"]

/-- `HackCodeGenerator._GotoLabel`. -/
def GotoLabel (labelName : String) : List String :=
  ["@" ++ labelName, "0;JMP"]

/-- `HackCodeGenerator._GotoLocationFromMemory`. -/
def GotoLocationFromMemory (address : Nat) : List String :=
  ["@" ++ toString address, "A=M", "0;JMP"]

/-- `HackCodeGenerator.GenerateAsmEqCommand`. -/
def GenerateAsmEqCommand (name : String) (number : Nat) : List String :=
  ApplyComparisonTemplate "JEQ" name number

/-- `HackCodeGenerator.GenerateAsmGtCommand`. -/
def GenerateAsmGtCommand (name : String) (number : Nat) : List String :=
  ApplyComparisonTemplate "JLT" name number

/-- `HackCodeGenerator.GenerateAsmLtCommand`. -/
def GenerateAsmLtCommand (name : String) (number : Nat) : List String :=
  ApplyComparisonTemplate "JGT" name number

/-- `HackCodeGenerator.GenerateAsmPushCommand`; `none` models the Python
`None` fall-through for an unrecognized segment (unreachable from parsed
programs). -/
def GenerateAsmPushCommand (segment : String) (index : Nat) (name : String) :
    Option (List String) :=
  if segment = "constant" then
    some (ApplyPushConstantTemplate index)
  else if segment = "temp" ∨ segment = "pointer" then
    some (ApplyPushDirectTemplate (toString (SEGMENT_MAPPING segment + index)))
  else if segment = "argument" ∨ segment = "local" ∨ segment = "this" ∨ segment = "that" then
    some (ApplyPushIndirectTemplate (SEGMENT_MAPPING segment) index)
  else if segment = "static" then
    some (ApplyPushDirectTemplate (name ++ "." ++ toString index))
  else none

/-- `HackCodeGenerator.GenerateAsmPopCommand`. -/
def GenerateAsmPopCommand (segment : String) (index : Nat) (name : String) :
    Option (List String) :=
  if segment = "temp" ∨ segment = "pointer" then
    some (ApplyPopDirectTemplate (toString (SEGMENT_MAPPING segment + index)))
  else if segment = "argument" ∨ segment = "local" ∨ segment = "this" ∨ segment = "that" then
    some (ApplyPopIndirectTemplate (SEGMENT_MAPPING segment) index)
  else if segment = "static" then
    some (ApplyPopDirectTemplate (name ++ "." ++ toString index))
  else none

/-- `HackCodeGenerator.GenerateAsmLabelCommand`. -/
def GenerateAsmLabelCommand (functionName labelName : String) : List String :=
  ["(" ++ functionName ++ "$" ++ labelName ++ ")"]

/-- `HackCodeGenerator.GenerateAsmGotoCommand`. -/
def GenerateAsmGotoCommand (functionName labelName : String) : List String :=
  ["@" ++ functionName ++ "$" ++ labelName, "0;JMP"]

/-- `HackCodeGenerator.GenerateAsmIfGotoCommand`. -/
def GenerateAsmIfGotoCommand (functionName labelName : String) : List String :=
  ["@SP", "M=M-1", "A=M", "D=M", "@" ++ functionName ++ "$" ++ labelName, "D;JNE"]

/-- `HackCodeGenerator.GenerateAsmFunctionCommand`. -/
def GenerateAsmFunctionCommand (functionName : String) (localVariables : Nat) : List String :=
  CreateLabel functionName ++ (List.replicate localVariables (PushConstant (toString 0))).flatten

/-- `HackCodeGenerator.GenerateAsmCallCommand`. -/
def GenerateAsmCallCommand (functionName : String) (arguments : Nat) (name : String)
    (number : Nat) : List String :=
  let gotoName := functionName
  let returnAddress := name ++ "$" ++ toString number ++ "$return-address"
  PushConstant returnAddress
    ++ PushFromMemory (SEGMENT_MAPPING "local")
    ++ PushFromMemory (SEGMENT_MAPPING "argument")
    ++ PushFromMemory (SEGMENT_MAPPING "this")
    ++ PushFromMemory (SEGMENT_MAPPING "that")
    ++ FromMemoryToD (SEGMENT_MAPPING "sp")
    ++ AddConstantToD (-(arguments : Int) - 5)
    ++ FromDToMemory (SEGMENT_MAPPING "argument")
    ++ FromMemoryToMemory (SEGMENT_MAPPING "sp") (SEGMENT_MAPPING "local")
    ++ GotoLabel gotoName
    ++ CreateLabel returnAddress

/-- `HackCodeGenerator.GenerateAsmReturnCommand`. -/
def GenerateAsmReturnCommand : List String :=
  FromMemoryToMemory (SEGMENT_MAPPING "local") 13
    ++ FromMemoryToD 13
    ++ AddConstantToD (-5)
    ++ FromMemoryDToD
    ++ FromDToMemory 14
    ++ PopToD
    ++ FromDToMemoryIndirect (SEGMENT_MAPPING "argument")
    ++ FromMemoryToD (SEGMENT_MAPPING "argument")
    ++ AddConstantToD 1
    ++ FromDToMemory (SEGMENT_MAPPING "sp")
    ++ FromMemoryToD 13
    ++ AddConstantToD (-1)
    ++ FromMemoryDToD
    ++ FromDToMemory (SEGMENT_MAPPING "that")
    ++ FromMemoryToD 13
    ++ AddConstantToD (-2)
    ++ FromMemoryDToD
    ++ FromDToMemory (SEGMENT_MAPPING "this")
    ++ FromMemoryToD 13
    ++ AddConstantToD (-3)
    ++ FromMemoryDToD
    ++ FromDToMemory (SEGMENT_MAPPING "argument")
    ++ FromMemoryToD 13
    ++ AddConstantToD (-4)
    ++ FromMemoryDToD
    ++ FromDToMemory (SEGMENT_MAPPING "local")
    ++ GotoLocationFromMemory 14

/-- `HackCodeGenerator.GenerateAsm`: runtime dispatch on the command class;
`none` models the `getattr` failure for `ErrorCommand` (no
`GenerateAsmErrorCommand` method exists) and the `None` fall-through of the
push/pop generators. -/
def GenerateAsm (command : Command) (name functionName : String) (number : Nat) :
    Option (List String) :=
  match command with
  | .add => some (ApplyBinaryTemplate "+")
  | .sub => some (ApplyBinaryTemplate "-")
  | .neg => some (ApplyUnaryTemplate "-")
  | .eq => some (GenerateAsmEqCommand name number)
  | .gt => some (GenerateAsmGtCommand name number)
  | .lt => some (GenerateAsmLtCommand name number)
  | .and => some (ApplyBinaryTemplate "&")
  | .or => some (ApplyBinaryTemplate "|")
  | .not => some (ApplyUnaryTemplate "!")
  | .push seg i => GenerateAsmPushCommand seg i name
  | .pop seg i => GenerateAsmPopCommand seg i name
  | .label l => some (GenerateAsmLabelCommand functionName l)
  | .goto l => some (GenerateAsmGotoCommand functionName l)
  | .ifGoto l => some (GenerateAsmIfGotoCommand functionName l)
  | .function f k => some (GenerateAsmFunctionCommand f k)
  | .call f n => some (GenerateAsmCallCommand f n name number)
  | .ret => some GenerateAsmReturnCommand
  | .empty => some []
  | .error _ => none

/-- `HackCodeGenerator.GenerateBootstrapAsm`. -/
def GenerateBootstrapAsm : List String :=
  ["@256", "D=A", "@0", "M=D"] ++ GenerateAsmCallCommand "Sys.init" 0 "Sys" 1000000

/-- Helper for `IdentifyParentFunctions`: threads the name of the most recent
`function` command. -/
def identifyAux : String → List Command → List String
  | _, [] => []
  | cur, c :: rest =>
    let cur2 := match c with
      | .function f _ => f
      | _ => cur
    cur2 :: identifyAux cur2 rest

/-- `IdentifyParentFunctions`. -/
def IdentifyParentFunctions (programCommands : List Command) : List String :=
  identifyAux "DEFAULT_FUNCTION" programCommands

/-- `DecorateCommands`: zip each command with the program name, its enclosing
function, and its 0-based line index. -/
def DecorateCommands (programCommands : List Command) (programName : String) :
    List (Command × String × String × Nat) :=
  List.zipWith (fun (p : Command × String) i => (p.1, programName, p.2, i))
    (programCommands.zip (IdentifyParentFunctions programCommands))
    (List.range programCommands.length)

/-- Maps a possibly-failing function over a list; `none` as soon as one
element fails (Python: the first raised exception propagates). -/
def mapOpt (f : α → Option β) : List α → Option (List β)
  | [] => some []
  | a :: l =>
    match f a with
    | none => none
    | some b =>
      match mapOpt f l with
      | none => none
      | some bs => some (b :: bs)

/-- Python `sep.join(strings)`. -/
def joinSep (sep : String) : List String → String
  | [] => ""
  | [s] => s
  | s :: rest => s ++ sep ++ joinSep sep rest

/-- The error-collection loop of `ParseProgram`: walk the parsed commands
with their 0-based index `i`, emitting `"name.N: text"` (with `N = i + 1`,
the 1-based line number) for every `ErrorCommand`. -/
def diagsFrom (programName : String) : Nat → List Command → List String
  | _, [] => []
  | i, c :: rest =>
    match c with
    | .error t =>
      (programName ++ "." ++ toString (i + 1) ++ ": " ++ t) :: diagsFrom programName (i + 1) rest
    | _ => diagsFrom programName (i + 1) rest

/-- `ParseProgram`: parse every line, then collect one diagnostic per
`ErrorCommand` (tagged with the program name and 1-based line number) and fail
with all of them joined by `os.linesep` (modelled as `"\n"`); otherwise return
the parsed commands.  The outer `none` models an exception escaping
`HackParser.ParseCommand` itself. -/
def ParseProgram (programLines : List String) (programName : String) :
    Option (Except String (List Command)) :=
  match mapOpt ParseCommand programLines with
  | none => none
  | some cmds =>
    let errors := diagsFrom programName 0 cmds
    if errors = [] then some (.ok cmds)
    else some (.error ("Error: " ++ joinSep "\n" errors))

/-- `FlattenAsm`. -/
def FlattenAsm (asmChunks : List (List String)) : List String := asmChunks.flatten

/-- `AssembleProgram`: parse, decorate, generate, flatten. -/
def AssembleProgram (programLines : List String) (programName : String) :
    Option (Except String (List String)) :=
  match ParseProgram programLines programName with
  | none => none
  | some (.error e) => some (.error e)
  | some (.ok cmds) =>
    match mapOpt (fun d => GenerateAsm d.1 d.2.1 d.2.2.1 d.2.2.2)
        (DecorateCommands cmds programName) with
    | none => none
    | some chunks => some (.ok (FlattenAsm chunks))

/-- `LinkPrograms`: assemble each `(name, lines)` program in input order and
concatenate; the first exception (a `VMError` from a malformed program, or a
crash) propagates, so later programs are not assembled. -/
def LinkPrograms : List (String × List String) → Option (Except String (List String))
  | [] => some (.ok [])
  | (nm, ls) :: rest =>
    match AssembleProgram ls nm with
    | none => none
    | some (.error e) => some (.error e)
    | some (.ok asmLines) =>
      match LinkPrograms rest with
      | none => none
      | some (.error e) => some (.error e)
      | some (.ok restAsm) => some (.ok (asmLines ++ restAsm))

/-- `AttachBootstrapCode`. -/
def AttachBootstrapCode (programAsm : List String) : List String :=
  GenerateBootstrapAsm ++ programAsm

example : AssembleProgram ["push constant 13", "add"] "foo" =
    some (.ok ["@13", "D=A", "@SP", "A=M", "M=D", "@SP", "M=M+1",
               "@SP", "M=M-1", "A=M", "D=M", "A=A-1", "M=D+M"]) := rfl
example : AssembleProgram ["xx", "add", "yy"] "foo" =
    some (.error "Error: foo.1: xx\nfoo.3: yy") := rfl
example : LinkPrograms [("A", ["xx"]), ("B", ["yy"])] =
    some (.error "Error: A.1: xx") := rfl
example : (GenerateAsm (.push "temp" 2) "foo" "bar" 2).getD [] =
    ["@7", "D=M", "@SP", "A=M", "M=D", "@SP", "M=M+1"] := by decide
example : (GenerateAsm (.pop "pointer" 42) "foo" "bar" 1).getD [] =
    ["@SP", "M=M-1", "A=M", "D=M", "@45", "M=D"] := by decide
example : (GenerateAsm (.push "static" 42) "foo" "bar" 4).getD [] =
    ["@foo.42", "D=M", "@SP", "A=M", "M=D", "@SP", "M=M+1"] := by decide

/-!
## Arithmetic simulation of the generated assembly

The generator emits Hack assembly as strings.  To simulate it arithmetically
we mirror each emitted instruction as an `Asm` value; `render` maps an `Asm`
back to the exact emitted string, and the `…_render` lemmas below certify
that each mirrored template renders to precisely the string list the
embedded generator produces.  Machine words are unbounded integers (the
simulation is arithmetic, not 16-bit). -/

/-- One Hack assembly instruction, as emitted by the generator: a numeric
`@n`, a symbolic `@s`, a label definition `(s)`, or a compute instruction
kept verbatim as its string. -/
inductive Asm where
  | A (n : Int)
  | AS (s : String)
  | L (s : String)
  | C (s : String)
  deriving DecidableEq

/-- The exact assembly string an `Asm` value stands for. -/
def render : Asm → String
  | .A n => "@" ++ toString n
  | .AS s => "@" ++ s
  | .L s => "(" ++ s ++ ")"
  | .C s => s

/-- Machine state for the arithmetic simulation: the address register, the
data register, and the memory. -/
structure MState where
  A : Int
  D : Int
  ram : Int → Int

/-- Memory update. -/
def updRam (r : Int → Int) (a v : Int) : Int → Int :=
  fun x => if x = a then v else r x

/-- Resolution of an `@`-symbol: the predefined symbol `SP` is address 0;
every other symbol (the generated labels, whose numeric value a downstream
assembler would assign) resolves through `env`. -/
def envSym (env : String → Int) (s : String) : Int :=
  if s = "SP" then 0 else env s

/-- State effect of one instruction.  Jump instructions and label
definitions do not change the registers or the memory; control flow is
handled by `run`. -/
def step (env : String → Int) : Asm → MState → MState
  | .A n, st => { st with A := n }
  | .AS s, st => { st with A := envSym env s }
  | .L _, st => st
  | .C c, st =>
    match c with
    | "D=M" => { st with D := st.ram st.A }
    | "A=M" => { st with A := st.ram st.A }
    | "M=D" => { st with ram := updRam st.ram st.A st.D }
    | "M=M-1" => { st with ram := updRam st.ram st.A (st.ram st.A - 1) }
    | "M=M+1" => { st with ram := updRam st.ram st.A (st.ram st.A + 1) }
    | "A=A-1" => { st with A := st.A - 1 }
    | "A=M-1" => { st with A := st.ram st.A - 1 }
    | "D=A" => { st with D := st.A }
    | "D=D+A" => { st with D := st.D + st.A }
    | "D=D-A" => { st with D := st.D - st.A }
    | "D=D-M" => { st with D := st.D - st.ram st.A }
    | "M=D+M" => { st with ram := updRam st.ram st.A (st.D + st.ram st.A) }
    | "M=M-D" => { st with ram := updRam st.ram st.A (st.ram st.A - st.D) }
    | "M=0" => { st with ram := updRam st.ram st.A 0 }
    | "M=!M" => { st with ram := updRam st.ram st.A (-(st.ram st.A) - 1) }
    | "M=-M" => { st with ram := updRam st.ram st.A (-(st.ram st.A)) }
    | "A=D" => { st with A := st.D }
    | "A=D+A" => { st with A := st.D + st.A }
    | _ => st

/-- Straight-line execution of an instruction list (no control transfer;
adequate for jump-free code, and for blocks whose single jump is the final
transfer out of the block, since jumps have no state effect in `step`). -/
def execList (env : String → Int) (prog : List Asm) (s : MState) : MState :=
  prog.foldl (fun st i => step env i st) s

/-- Whether a compute instruction is a jump, and whether it is taken given the
current value of `D`. -/
def jumpTaken : String → Int → Option Bool
  | "0;JMP", _ => some true
  | "D;JEQ", d => some (decide (d = 0))
  | "D;JNE", d => some (decide (d ≠ 0))
  | "D;JLT", d => some (decide (d < 0))
  | "D;JGT", d => some (decide (0 < d))
  | _, _ => none

/-- Full execution with control flow: the program counter indexes the
instruction list, and a taken jump transfers to the index held in `A`
(the label environment maps each label to its definition's index). -/
def run (env : String → Int) : Nat → List Asm → Nat → MState → MState
  | 0, _, _, st => st
  | fuel + 1, prog, pc, st =>
    match prog[pc]? with
    | none => st
    | some instr =>
      match instr with
      | .C c =>
        match jumpTaken c st.D with
        | some b => run env fuel prog (if b then st.A.toNat else pc + 1) st
        | none => run env fuel prog (pc + 1) (step env (.C c) st)
      | i => run env fuel prog (pc + 1) (step env i st)

/-- Index of the definition of label `s` in `prog`, as the value an assembler
would assign to the symbol. -/
def labelEnv (prog : List Asm) : String → Int :=
  fun s => ((prog.indexOf (Asm.L s) : Nat) : Int)

/-- `_ApplyPushTemplate`, mirrored. -/
def ApplyPushTemplateAst : List Asm :=
  [.AS "SP", .C "A=M", .C "M=D", .AS "SP", .C "M=M+1"]

/-- `_ApplyPushConstantTemplate`, mirrored. -/
def ApplyPushConstantTemplateAst (value : Int) : List Asm :=
  [.A value, .C "D=A"] ++ ApplyPushTemplateAst

/-- `_ApplyPushDirectTemplate` at an int address, mirrored. -/
def ApplyPushDirectTemplateAst (value : Int) : List Asm :=
  [.A value, .C "D=M"] ++ ApplyPushTemplateAst

/-- `_ApplyPushIndirectTemplate`, mirrored. -/
def ApplyPushIndirectTemplateAst (segmentBase index : Int) : List Asm :=
  [.A segmentBase, .C "D=M", .A index, .C "A=D+A", .C "D=M"] ++ ApplyPushTemplateAst

/-- `_ApplyPopDirectTemplate` at an int address, mirrored. -/
def ApplyPopDirectTemplateAst (value : Int) : List Asm :=
  [.AS "SP", .C "M=M-1", .C "A=M", .C "D=M", .A value, .C "M=D"]

/-- `_ApplyPopIndirectTemplate`, mirrored. -/
def ApplyPopIndirectTemplateAst (segmentBase index : Int) : List Asm :=
  [.A segmentBase, .C "D=M", .A index, .C "D=D+A",
   .A 13, .C "M=D",
   .AS "SP", .C "M=M-1", .C "A=M", .C "D=M",
   .A 13, .C "A=M", .C "M=D"]

/-- `_FromMemoryToD`, mirrored. -/
def FromMemoryToDAst (address : Int) : List Asm :=
  [.A address, .C "D=M"]

/-- `_FromMemoryDToD`, mirrored. -/
def FromMemoryDToDAst : List Asm :=
  [.C "A=D", .C "D=M"]

/-- `_FromDToMemory`, mirrored. -/
def FromDToMemoryAst (address : Int) : List Asm :=
  [.A address, .C "M=D"]

/-- `_FromDToMemoryIndirect`, mirrored. -/
def FromDToMemoryIndirectAst (address : Int) : List Asm :=
  [.A address, .C "A=M", .C "M=D"]

/-- `_FromMemoryToMemory`, mirrored. -/
def FromMemoryToMemoryAst (fromAddress toAddress : Int) : List Asm :=
  FromMemoryToDAst fromAddress ++ FromDToMemoryAst toAddress

/-- `_AddConstantToD`, mirrored. -/
def AddConstantToDAst (constant : Int) : List Asm :=
  if constant < 0 then [.A (-constant), .C "D=D-A"]
  else [.A constant, .C "D=D+A"]

/-- `_PopToD`, mirrored. -/
def PopToDAst : List Asm :=
  [.AS "SP", .C "M=M-1", .C "A=M", .C "D=M"]

/-- `_PushConstant` at a label string, mirrored. -/
def PushConstantAstS (constant : String) : List Asm :=
  [.AS constant, .C "D=A", .AS "SP", .C "M=M+1", .C "A=M-1", .C "M=D"]

/-- `_PushConstant` at an int, mirrored. -/
def PushConstantAstN (constant : Int) : List Asm :=
  [.A constant, .C "D=A", .AS "SP", .C "M=M+1", .C "A=M-1", .C "M=D"]

/-- `_PushFromMemory`, mirrored. -/
def PushFromMemoryAst (address : Int) : List Asm :=
  FromMemoryToDAst address ++ [.AS "SP", .C "M=M+1", .C "A=M-1", .C "M=D"]

/-- `_CreateLabel`, mirrored. -/
def CreateLabelAst (labelName : String) : List Asm :=
  [.L labelName]

/-- `_GotoLabel`, mirrored. -/
def GotoLabelAst (labelName : String) : List Asm :=
  [.AS labelName, .C "0;JMP"]

/-- `_GotoLocationFromMemory`, mirrored. -/
def GotoLocationFromMemoryAst (address : Int) : List Asm :=
  [.A address, .C "A=M", .C "0;JMP"]

/-- The return-address label minted by `GenerateAsmCallCommand`. -/
def retAddrLabel (name : String) (number : Nat) : String :=
  name ++ "$" ++ toString number ++ "$return-address"

/-- `GenerateAsmCallCommand`, mirrored. -/
def CallCommandAst (functionName : String) (arguments : Nat) (name : String)
    (number : Nat) : List Asm :=
  PushConstantAstS (retAddrLabel name number)
    ++ PushFromMemoryAst 1
    ++ PushFromMemoryAst 2
    ++ PushFromMemoryAst 3
    ++ PushFromMemoryAst 4
    ++ FromMemoryToDAst 0
    ++ AddConstantToDAst (-(arguments : Int) - 5)
    ++ FromDToMemoryAst 2
    ++ FromMemoryToMemoryAst 0 1
    ++ GotoLabelAst functionName
    ++ CreateLabelAst (retAddrLabel name number)

/-- `GenerateAsmReturnCommand`, mirrored. -/
def ReturnCommandAst : List Asm :=
  FromMemoryToMemoryAst 1 13
    ++ FromMemoryToDAst 13
    ++ AddConstantToDAst (-5)
    ++ FromMemoryDToDAst
    ++ FromDToMemoryAst 14
    ++ PopToDAst
    ++ FromDToMemoryIndirectAst 2
    ++ FromMemoryToDAst 2
    ++ AddConstantToDAst 1
    ++ FromDToMemoryAst 0
    ++ FromMemoryToDAst 13
    ++ AddConstantToDAst (-1)
    ++ FromMemoryDToDAst
    ++ FromDToMemoryAst 4
    ++ FromMemoryToDAst 13
    ++ AddConstantToDAst (-2)
    ++ FromMemoryDToDAst
    ++ FromDToMemoryAst 3
    ++ FromMemoryToDAst 13
    ++ AddConstantToDAst (-3)
    ++ FromMemoryDToDAst
    ++ FromDToMemoryAst 2
    ++ FromMemoryToDAst 13
    ++ AddConstantToDAst (-4)
    ++ FromMemoryDToDAst
    ++ FromDToMemoryAst 1
    ++ GotoLocationFromMemoryAst 14

/-- `GenerateAsmFunctionCommand`, mirrored. -/
def FunctionCommandAst (functionName : String) (localVariables : Nat) : List Asm :=
  CreateLabelAst functionName
    ++ (List.replicate localVariables (PushConstantAstN 0)).flatten

/-- `_ApplyComparisonTemplate`, mirrored. -/
def ComparisonTemplateAst (op name : String) (number : Nat) : List Asm :=
  let branchLabel := name ++ "$" ++ toString number ++ "$branch"
  let endLabel := name ++ "$" ++ toString number ++ "$end"
  [.AS "SP", .C "M=M-1", .C "A=M", .C "D=M", .C "A=A-1", .C "D=D-M",
   .AS branchLabel, .C ("D;" ++ op),
   .AS "SP", .C "A=M-1", .C "M=0",
   .AS endLabel, .C "0;JMP",
   .L branchLabel,
   .AS "SP", .C "A=M-1", .C "M=0", .C "M=!M",
   .L endLabel]

theorem toString_intOfNat (i : Nat) : toString ((i : Int)) = toString i := rfl

/-- The mirrored call block renders to exactly the strings the generator
emits for a `call` command. -/
theorem CallCommandAst_render (functionName : String) (arguments : Nat)
    (name : String) (number : Nat) :
    (CallCommandAst functionName arguments name number).map render =
      GenerateAsmCallCommand functionName arguments name number := by
  have hneg : (-(arguments : Int) - 5) < 0 := by omega
  simp [CallCommandAst, GenerateAsmCallCommand, render, PushConstantAstS,
    PushFromMemoryAst, FromMemoryToDAst, AddConstantToDAst, FromDToMemoryAst,
    FromMemoryToMemoryAst, GotoLabelAst, CreateLabelAst, retAddrLabel,
    PushConstant, PushFromMemory, FromMemoryToD, AddConstantToD, FromDToMemory,
    FromMemoryToMemory, GotoLabel, CreateLabel, SEGMENT_MAPPING, hneg,
    toString_intOfNat]
  all_goals decide

/-- The mirrored return block renders to exactly the strings the generator
emits for a `return` command. -/
theorem ReturnCommandAst_render :
    ReturnCommandAst.map render = GenerateAsmReturnCommand := by
  simp [ReturnCommandAst, GenerateAsmReturnCommand, render,
    FromMemoryToMemoryAst, FromMemoryToDAst, AddConstantToDAst,
    FromMemoryDToDAst, FromDToMemoryAst, PopToDAst, FromDToMemoryIndirectAst,
    GotoLocationFromMemoryAst, FromMemoryToMemory, FromMemoryToD,
    AddConstantToD, FromMemoryDToD, FromDToMemory, PopToD,
    FromDToMemoryIndirect, GotoLocationFromMemory, SEGMENT_MAPPING,
    toString_intOfNat]
  all_goals decide

/-- The mirrored function prologue renders to exactly the strings the
generator emits for a `function` command. -/
theorem FunctionCommandAst_render (functionName : String) (localVariables : Nat) :
    (FunctionCommandAst functionName localVariables).map render =
      GenerateAsmFunctionCommand functionName localVariables := by
  induction localVariables with
  | zero =>
    simp [FunctionCommandAst, GenerateAsmFunctionCommand, CreateLabelAst,
      CreateLabel, render]
  | succ k ih =>
    simp only [FunctionCommandAst, GenerateAsmFunctionCommand,
      List.replicate_succ, List.flatten_cons, List.map_append] at ih ⊢
    simp_all [PushConstantAstN, PushConstant, render, CreateLabelAst, CreateLabel,
      toString_intOfNat]
    all_goals decide

/-- The mirrored comparison block renders to exactly the strings the
generator emits by `_ApplyComparisonTemplate`. -/
theorem ComparisonTemplateAst_render (op name : String) (number : Nat) :
    (ComparisonTemplateAst op name number).map render =
      ApplyComparisonTemplate op name number := by
  simp [ComparisonTemplateAst, ApplyComparisonTemplate, render]

/-- The mirrored direct push renders to the generator's `push temp/pointer`
output. -/
theorem ApplyPushDirectTemplateAst_render (value : Nat) :
    (ApplyPushDirectTemplateAst value).map render =
      ApplyPushDirectTemplate (toString value) := by
  simp [ApplyPushDirectTemplateAst, ApplyPushDirectTemplate,
    ApplyPushTemplateAst, ApplyPushTemplate, render, toString_intOfNat]

/-- The mirrored indirect push renders to the generator's
`push argument/local/this/that` output. -/
theorem ApplyPushIndirectTemplateAst_render (segmentBase index : Nat) :
    (ApplyPushIndirectTemplateAst segmentBase index).map render =
      ApplyPushIndirectTemplate segmentBase index := by
  simp [ApplyPushIndirectTemplateAst, ApplyPushIndirectTemplate,
    ApplyPushTemplateAst, ApplyPushTemplate, render, toString_intOfNat]

/-- The mirrored direct pop renders to the generator's `pop temp/pointer`
output. -/
theorem ApplyPopDirectTemplateAst_render (value : Nat) :
    (ApplyPopDirectTemplateAst value).map render =
      ApplyPopDirectTemplate (toString value) := by
  simp [ApplyPopDirectTemplateAst, ApplyPopDirectTemplate, render, toString_intOfNat]

/-- The mirrored indirect pop renders to the generator's
`pop argument/local/this/that` output. -/
theorem ApplyPopIndirectTemplateAst_render (segmentBase index : Nat) :
    (ApplyPopIndirectTemplateAst segmentBase index).map render =
      ApplyPopIndirectTemplate segmentBase index := by
  simp [ApplyPopIndirectTemplateAst, ApplyPopIndirectTemplate, render,
    toString_intOfNat]
  all_goals decide

/-!
## Effect lemmas for the simulated blocks
-/

theorem execList_append (env : String → Int) (xs ys : List Asm) (s : MState) :
    execList env (xs ++ ys) s = execList env ys (execList env xs s) :=
  List.foldl_append _ _ _ _

theorem updRam_same (r : Int → Int) (a v : Int) : updRam r a v a = v := by
  simp [updRam]

theorem updRam_other (r : Int → Int) (a v x : Int) (h : x ≠ a) : updRam r a v x = r x := by
  simp [updRam, h]

theorem FromMemoryToDAst_eff (env : String → Int) (a : Int) (s : MState) :
    execList env (FromMemoryToDAst a) s = ⟨a, s.ram a, s.ram⟩ := rfl

theorem FromMemoryDToDAst_eff (env : String → Int) (s : MState) :
    execList env FromMemoryDToDAst s = ⟨s.D, s.ram s.D, s.ram⟩ := rfl

theorem FromDToMemoryAst_eff (env : String → Int) (a : Int) (s : MState) :
    execList env (FromDToMemoryAst a) s = ⟨a, s.D, updRam s.ram a s.D⟩ := rfl

theorem FromDToMemoryIndirectAst_eff (env : String → Int) (a : Int) (s : MState) :
    execList env (FromDToMemoryIndirectAst a) s =
      ⟨s.ram a, s.D, updRam s.ram (s.ram a) s.D⟩ := rfl

theorem FromMemoryToMemoryAst_eff (env : String → Int) (a b : Int) (s : MState) :
    execList env (FromMemoryToMemoryAst a b) s =
      ⟨b, s.ram a, updRam s.ram b (s.ram a)⟩ := rfl

theorem CreateLabelAst_eff (env : String → Int) (l : String) (s : MState) :
    execList env (CreateLabelAst l) s = s := rfl

theorem GotoLabelAst_eff (env : String → Int) (l : String) (s : MState) :
    execList env (GotoLabelAst l) s = ⟨envSym env l, s.D, s.ram⟩ := rfl

theorem GotoLocationFromMemoryAst_eff (env : String → Int) (a : Int) (s : MState) :
    execList env (GotoLocationFromMemoryAst a) s = ⟨s.ram a, s.D, s.ram⟩ := rfl

theorem PopToDAst_eff (env : String → Int) (s : MState) :
    execList env PopToDAst s =
      ⟨s.ram 0 - 1, updRam s.ram 0 (s.ram 0 - 1) (s.ram 0 - 1),
        updRam s.ram 0 (s.ram 0 - 1)⟩ := rfl

theorem AddConstantToDAst_eff (env : String → Int) (c : Int) (s : MState) :
    execList env (AddConstantToDAst c) s = ⟨if c < 0 then -c else c, s.D + c, s.ram⟩ := by
  by_cases h : c < 0 <;>
    simp [AddConstantToDAst, h, execList, step, MState.mk.injEq]

theorem PushFromMemoryAst_eff (env : String → Int) (a : Int) (s : MState) (m : Int)
    (h0 : s.ram 0 = m) (hm : m ≠ 0) :
    (execList env (PushFromMemoryAst a) s).ram 0 = m + 1 ∧
    (execList env (PushFromMemoryAst a) s).ram m = s.ram a ∧
    (∀ x : Int, x ≠ 0 → x ≠ m → (execList env (PushFromMemoryAst a) s).ram x = s.ram x) := by
  have heq : execList env (PushFromMemoryAst a) s =
      ⟨s.ram 0 + 1 - 1, s.ram a,
        updRam (updRam s.ram 0 (s.ram 0 + 1)) (s.ram 0 + 1 - 1) (s.ram a)⟩ := rfl
  rw [heq]
  subst h0
  refine ⟨?_, ?_, fun x hx hxm => ?_⟩ <;> simp only [updRam] <;> split_ifs <;> omega

theorem PushConstantAstS_eff (env : String → Int) (c : String) (s : MState) (m : Int)
    (h0 : s.ram 0 = m) (hm : m ≠ 0) :
    (execList env (PushConstantAstS c) s).ram 0 = m + 1 ∧
    (execList env (PushConstantAstS c) s).ram m = envSym env c ∧
    (∀ x : Int, x ≠ 0 → x ≠ m → (execList env (PushConstantAstS c) s).ram x = s.ram x) := by
  have heq : execList env (PushConstantAstS c) s =
      ⟨s.ram 0 + 1 - 1, envSym env c,
        updRam (updRam s.ram 0 (s.ram 0 + 1)) (s.ram 0 + 1 - 1) (envSym env c)⟩ := rfl
  rw [heq]
  subst h0
  refine ⟨?_, ?_, fun x hx hxm => ?_⟩ <;> simp only [updRam] <;> split_ifs <;> omega

theorem PushConstantAstN_eff (env : String → Int) (n : Int) (s : MState) (m : Int)
    (h0 : s.ram 0 = m) (hm : m ≠ 0) :
    (execList env (PushConstantAstN n) s).ram 0 = m + 1 ∧
    (execList env (PushConstantAstN n) s).ram m = n ∧
    (∀ x : Int, x ≠ 0 → x ≠ m → (execList env (PushConstantAstN n) s).ram x = s.ram x) := by
  have heq : execList env (PushConstantAstN n) s =
      ⟨s.ram 0 + 1 - 1, n,
        updRam (updRam s.ram 0 (s.ram 0 + 1)) (s.ram 0 + 1 - 1) n⟩ := rfl
  rw [heq]
  subst h0
  refine ⟨?_, ?_, fun x hx hxm => ?_⟩ <;> simp only [updRam] <;> split_ifs <;> omega

theorem ApplyPushConstantTemplateAst_eff (env : String → Int) (v : Int) (s : MState)
    (m : Int) (h0 : s.ram 0 = m) (hm : m ≠ 0) :
    (execList env (ApplyPushConstantTemplateAst v) s).ram 0 = m + 1 ∧
    (execList env (ApplyPushConstantTemplateAst v) s).ram m = v ∧
    (∀ x : Int, x ≠ 0 → x ≠ m →
      (execList env (ApplyPushConstantTemplateAst v) s).ram x = s.ram x) := by
  have heq : execList env (ApplyPushConstantTemplateAst v) s =
      ⟨0, v,
        updRam (updRam s.ram (s.ram 0) v) 0
          (updRam s.ram (s.ram 0) v 0 + 1)⟩ := rfl
  rw [heq]
  subst h0
  refine ⟨?_, ?_, fun x hx hxm => ?_⟩ <;> simp only [updRam] <;> split_ifs <;> omega

theorem ApplyPushDirectTemplateAst_eff (env : String → Int) (a : Int) (s : MState)
    (m : Int) (h0 : s.ram 0 = m) (hm : m ≠ 0) :
    (execList env (ApplyPushDirectTemplateAst a) s).ram 0 = m + 1 ∧
    (execList env (ApplyPushDirectTemplateAst a) s).ram m = s.ram a ∧
    (∀ x : Int, x ≠ 0 → x ≠ m →
      (execList env (ApplyPushDirectTemplateAst a) s).ram x = s.ram x) := by
  have heq : execList env (ApplyPushDirectTemplateAst a) s =
      ⟨0, s.ram a,
        updRam (updRam s.ram (s.ram 0) (s.ram a)) 0
          (updRam s.ram (s.ram 0) (s.ram a) 0 + 1)⟩ := rfl
  rw [heq]
  subst h0
  refine ⟨?_, ?_, fun x hx hxm => ?_⟩ <;> simp only [updRam] <;> split_ifs <;> omega

theorem ApplyPushIndirectTemplateAst_eff (env : String → Int) (b i : Int) (s : MState)
    (m : Int) (h0 : s.ram 0 = m) (hm : m ≠ 0) :
    (execList env (ApplyPushIndirectTemplateAst b i) s).ram 0 = m + 1 ∧
    (execList env (ApplyPushIndirectTemplateAst b i) s).ram m = s.ram (s.ram b + i) ∧
    (∀ x : Int, x ≠ 0 → x ≠ m →
      (execList env (ApplyPushIndirectTemplateAst b i) s).ram x = s.ram x) := by
  have heq : execList env (ApplyPushIndirectTemplateAst b i) s =
      ⟨0, s.ram (s.ram b + i),
        updRam (updRam s.ram (s.ram 0) (s.ram (s.ram b + i))) 0
          (updRam s.ram (s.ram 0) (s.ram (s.ram b + i)) 0 + 1)⟩ := rfl
  rw [heq]
  subst h0
  refine ⟨?_, ?_, fun x hx hxm => ?_⟩ <;> simp only [updRam] <;> split_ifs <;> omega

theorem ApplyPopDirectTemplateAst_eff (env : String → Int) (a : Int) (s : MState)
    (m : Int) (h0 : s.ram 0 = m) (h1 : m ≠ 1) (ha : a ≠ 0) :
    (execList env (ApplyPopDirectTemplateAst a) s).ram a = s.ram (m - 1) ∧
    (execList env (ApplyPopDirectTemplateAst a) s).ram 0 = m - 1 ∧
    (∀ x : Int, x ≠ 0 → x ≠ a →
      (execList env (ApplyPopDirectTemplateAst a) s).ram x = s.ram x) := by
  have heq : execList env (ApplyPopDirectTemplateAst a) s =
      ⟨a, updRam s.ram 0 (s.ram 0 - 1) (s.ram 0 - 1),
        updRam (updRam s.ram 0 (s.ram 0 - 1)) a
          (updRam s.ram 0 (s.ram 0 - 1) (s.ram 0 - 1))⟩ := rfl
  rw [heq]
  subst h0
  refine ⟨?_, ?_, fun x hx hxa => ?_⟩ <;> simp only [updRam] <;> split_ifs <;> omega

theorem ApplyPopIndirectTemplateAst_eff (env : String → Int) (b i : Int) (s : MState)
    (m : Int) (h0 : s.ram 0 = m) (h1 : m ≠ 1) (h14 : m ≠ 14)
    (ht : s.ram b + i ≠ 0) :
    (execList env (ApplyPopIndirectTemplateAst b i) s).ram (s.ram b + i) = s.ram (m - 1) ∧
    (execList env (ApplyPopIndirectTemplateAst b i) s).ram 0 = m - 1 ∧
    (∀ x : Int, x ≠ 0 → x ≠ 13 → x ≠ s.ram b + i →
      (execList env (ApplyPopIndirectTemplateAst b i) s).ram x = s.ram x) := by
  have heq : execList env (ApplyPopIndirectTemplateAst b i) s =
      ⟨updRam (updRam s.ram 13 (s.ram b + i)) 0
          (updRam s.ram 13 (s.ram b + i) 0 - 1) 13,
        updRam (updRam s.ram 13 (s.ram b + i)) 0
          (updRam s.ram 13 (s.ram b + i) 0 - 1)
          (updRam s.ram 13 (s.ram b + i) 0 - 1),
        updRam
          (updRam (updRam s.ram 13 (s.ram b + i)) 0
            (updRam s.ram 13 (s.ram b + i) 0 - 1))
          (updRam (updRam s.ram 13 (s.ram b + i)) 0
            (updRam s.ram 13 (s.ram b + i) 0 - 1) 13)
          (updRam (updRam s.ram 13 (s.ram b + i)) 0
            (updRam s.ram 13 (s.ram b + i) 0 - 1)
            (updRam s.ram 13 (s.ram b + i) 0 - 1))⟩ := rfl
  rw [heq]
  subst h0
  refine ⟨?_, ?_, fun x hx h13 hxt => ?_⟩ <;> simp only [updRam] <;> split_ifs <;> omega

/-- Effect of the `function` local-variable prologue: `k` zero-pushes raise
the stack pointer by `k` and leave every cell below the old stack top
unchanged. -/
theorem locals_eff (env : String → Int) (k : Nat) :
    ∀ (s : MState) (m : Int), s.ram 0 = m → 0 < m →
      ((execList env (List.replicate k (PushConstantAstN 0)).flatten s).ram 0 = m + k ∧
       (∀ x : Int, x ≠ 0 → x < m →
         (execList env (List.replicate k (PushConstantAstN 0)).flatten s).ram x = s.ram x)) := by
  induction k with
  | zero => intro s m h0 _; simpa [execList] using h0
  | succ n ih =>
    intro s m h0 hm
    rw [List.replicate_succ, List.flatten_cons, execList_append]
    obtain ⟨ha, _, hc⟩ := PushConstantAstN_eff env 0 s m h0 (by omega)
    obtain ⟨hA, hB⟩ := ih (execList env (PushConstantAstN 0) s) (m + 1) ha (by omega)
    constructor
    · rw [hA]; push_cast; ring
    · intro x hx hxm
      rw [hB x hx (by omega), hc x hx (by omega)]

/-- Record form of the `_PushConstant` (label) block. -/
theorem PushConstantAstS_rec (env : String → Int) (c : String) (s : MState) :
    execList env (PushConstantAstS c) s =
      ⟨s.ram 0 + 1 - 1, envSym env c,
        updRam (updRam s.ram 0 (s.ram 0 + 1)) (s.ram 0 + 1 - 1) (envSym env c)⟩ := rfl

/-- Record form of the `_PushFromMemory` block. -/
theorem PushFromMemoryAst_rec (env : String → Int) (a : Int) (s : MState) :
    execList env (PushFromMemoryAst a) s =
      ⟨s.ram 0 + 1 - 1, s.ram a,
        updRam (updRam s.ram 0 (s.ram 0 + 1)) (s.ram 0 + 1 - 1) (s.ram a)⟩ := rfl

/-- Composite effect of the generated `call` block, for any start state whose
stack pointer `m` lies above the register file: the five frame cells are
pushed in order (return address, then the local, argument, this, that base
pointers), the argument base pointer becomes `m - n`, and the local base
pointer becomes the new stack pointer `m + 5`. -/
theorem call_eff (env : String → Int) (f name : String) (n number : Nat) (s : MState)
    (m : Int) (h0 : s.ram 0 = m) (hm : 16 ≤ m) :
    (execList env (CallCommandAst f n name number) s).ram 0 = m + 5 ∧
    (execList env (CallCommandAst f n name number) s).ram 1 = m + 5 ∧
    (execList env (CallCommandAst f n name number) s).ram 2 = m - n ∧
    (execList env (CallCommandAst f n name number) s).ram m
      = envSym env (retAddrLabel name number) ∧
    (execList env (CallCommandAst f n name number) s).ram (m + 1) = s.ram 1 ∧
    (execList env (CallCommandAst f n name number) s).ram (m + 2) = s.ram 2 ∧
    (execList env (CallCommandAst f n name number) s).ram (m + 3) = s.ram 3 ∧
    (execList env (CallCommandAst f n name number) s).ram (m + 4) = s.ram 4 ∧
    (∀ x : Int, x ≠ 0 → x ≠ 1 → x ≠ 2 → (x < m ∨ m + 5 ≤ x) →
      (execList env (CallCommandAst f n name number) s).ram x = s.ram x) := by
  simp only [CallCommandAst, execList_append]
  obtain ⟨h1a, h1b, h1c⟩ :=
    PushConstantAstS_eff env (retAddrLabel name number) s m h0 (by omega)
  generalize hg1 : execList env (PushConstantAstS (retAddrLabel name number)) s = t1
  rw [hg1] at h1a h1b h1c
  obtain ⟨h2a, h2b, h2c⟩ := PushFromMemoryAst_eff env 1 t1 (m + 1) h1a (by omega)
  generalize hg2 : execList env (PushFromMemoryAst 1) t1 = t2
  rw [hg2] at h2a h2b h2c
  have h2a' : t2.ram 0 = m + 2 := by omega
  obtain ⟨h3a, h3b, h3c⟩ := PushFromMemoryAst_eff env 2 t2 (m + 2) h2a' (by omega)
  generalize hg3 : execList env (PushFromMemoryAst 2) t2 = t3
  rw [hg3] at h3a h3b h3c
  have h3a' : t3.ram 0 = m + 3 := by omega
  obtain ⟨h4a, h4b, h4c⟩ := PushFromMemoryAst_eff env 3 t3 (m + 3) h3a' (by omega)
  generalize hg4 : execList env (PushFromMemoryAst 3) t3 = t4
  rw [hg4] at h4a h4b h4c
  have h4a' : t4.ram 0 = m + 4 := by omega
  obtain ⟨h5a, h5b, h5c⟩ := PushFromMemoryAst_eff env 4 t4 (m + 4) h4a' (by omega)
  generalize hg5 : execList env (PushFromMemoryAst 4) t4 = t5
  rw [hg5] at h5a h5b h5c
  have h5a' : t5.ram 0 = m + 5 := by omega
  have hcm : t5.ram m = envSym env (retAddrLabel name number) := by
    rw [h5c m (by omega) (by omega), h4c m (by omega) (by omega),
      h3c m (by omega) (by omega), h2c m (by omega) (by omega), h1b]
  have hcm1 : t5.ram (m + 1) = s.ram 1 := by
    rw [h5c (m + 1) (by omega) (by omega), h4c (m + 1) (by omega) (by omega),
      h3c (m + 1) (by omega) (by omega), h2b, h1c 1 (by omega) (by omega)]
  have hcm2 : t5.ram (m + 2) = s.ram 2 := by
    rw [h5c (m + 2) (by omega) (by omega), h4c (m + 2) (by omega) (by omega), h3b,
      h2c 2 (by omega) (by omega), h1c 2 (by omega) (by omega)]
  have hcm3 : t5.ram (m + 3) = s.ram 3 := by
    rw [h5c (m + 3) (by omega) (by omega), h4b, h3c 3 (by omega) (by omega),
      h2c 3 (by omega) (by omega), h1c 3 (by omega) (by omega)]
  have hcm4 : t5.ram (m + 4) = s.ram 4 := by
    rw [h5b, h4c 4 (by omega) (by omega), h3c 4 (by omega) (by omega),
      h2c 4 (by omega) (by omega), h1c 4 (by omega) (by omega)]
  have hframe : ∀ x : Int, x ≠ 0 → (x < m ∨ m + 5 ≤ x) → t5.ram x = s.ram x := by
    intro x hx hlt
    rw [h5c x hx (by omega), h4c x hx (by omega), h3c x hx (by omega),
      h2c x hx (by omega), h1c x hx (by omega)]
  simp only [FromMemoryToDAst_eff, AddConstantToDAst_eff, FromDToMemoryAst_eff,
    FromMemoryToMemoryAst_eff, GotoLabelAst_eff, CreateLabelAst_eff]
  refine ⟨?_, ?_, ?_, ?_, ?_, ?_, ?_, ?_, fun x hx0 hx1 hx2 hlt => ?_⟩ <;>
    simp (disch := omega) only [updRam_same, updRam_other] <;>
    first
      | omega
      | (rw [hcm])
      | (rw [hcm1])
      | (rw [hcm2])
      | (rw [hcm3])
      | (rw [hcm4])
      | (rw [hframe x hx0 hlt])

set_option maxHeartbeats 1600000 in
/-- Composite effect of the generated `return` block.  Writing `L` for the
local base pointer (the callee frame base), `σ` for the stack pointer and `α`
for the argument base pointer at entry: the topmost stack value is copied to
cell `α` (the cell the argument base pointer designates), the stack pointer
becomes `α + 1`, the that/this/argument/local base pointers are restored from
cells `L - 1` … `L - 4`, and cell 14 receives the return address read from
`L - 5`. -/
theorem return_eff (env : String → Int) (s : MState) (L σ α : Int)
    (h1 : s.ram 1 = L) (h0 : s.ram 0 = σ) (h2 : s.ram 2 = α)
    (hL : 21 ≤ L) (hα : 16 ≤ α) (hαL : α + 4 < L) (hσ : 16 ≤ σ) :
    (execList env ReturnCommandAst s).ram 0 = s.ram 2 + 1 ∧
    (execList env ReturnCommandAst s).ram (s.ram 2) = s.ram (s.ram 0 - 1) ∧
    (execList env ReturnCommandAst s).ram 4 = s.ram (s.ram 1 - 1) ∧
    (execList env ReturnCommandAst s).ram 3 = s.ram (s.ram 1 - 2) ∧
    (execList env ReturnCommandAst s).ram 2 = s.ram (s.ram 1 - 3) ∧
    (execList env ReturnCommandAst s).ram 1 = s.ram (s.ram 1 - 4) ∧
    (execList env ReturnCommandAst s).ram 14 = s.ram (s.ram 1 - 5) ∧
    (∀ x : Int, x ≠ 0 → x ≠ 1 → x ≠ 2 → x ≠ 3 → x ≠ 4 → x ≠ 13 → x ≠ 14 →
      x ≠ s.ram 2 →
      (execList env ReturnCommandAst s).ram x = s.ram x) := by
  simp only [ReturnCommandAst, execList_append, FromMemoryToMemoryAst_eff,
    FromMemoryToDAst_eff, AddConstantToDAst_eff, FromMemoryDToDAst_eff,
    FromDToMemoryAst_eff, PopToDAst_eff, FromDToMemoryIndirectAst_eff,
    GotoLocationFromMemoryAst_eff]
  refine ⟨?_, ?_, ?_, ?_, ?_, ?_, ?_, fun x hx0 hx1 hx2 hx3 hx4 hx13 hx14 hxα => ?_⟩ <;>
    simp (disch := omega) only [updRam_same, updRam_other] <;>
    first
      | rfl
      | (congr 1; omega)
      | omega

/-!
## Claim theorems: the call protocol (C2) and call/return balance (C3)
-/

/-- Initial state for the call/return simulation: the stack pointer is
`256 + n` (the caller has pushed its `n` arguments into cells
`256 … 255 + n`, so the stack pointer before those pushes was 256); `l`,
`ag`, `t`, `th` are the caller's local, argument, this and that base
pointers (cells 1–4); every other memory cell holds the arbitrary `base`. -/
def preCallState (n : Nat) (l ag t th : Int) (base : Int → Int) : MState :=
  ⟨0, 0, fun x =>
    if x = 0 then 256 + (n : Int) else
    if x = 1 then l else
    if x = 2 then ag else
    if x = 3 then t else
    if x = 4 then th else base x⟩

/-- The simulated instruction stream of a complete call: the expansion of
`call f n`, then of `function f k` (callee prologue), then of
`push constant v` (the callee computing its result), then of `return`. -/
def callReturnProgram (f : String) (n : Nat) (name : String) (number : Nat)
    (k v : Nat) : List Asm :=
  CallCommandAst f n name number ++ FunctionCommandAst f k
    ++ ApplyPushConstantTemplateAst v ++ ReturnCommandAst

/-- C2: for every call instruction `call(f, n)` with `n ≥ 0` and every file
name and position, the generated assembly performs, in order: a push of a
return-address value whose label is built from the file name and position
(it lands in the first stack cell, 256), pushes of the local, argument,
this and that base-pointer cells in that order (cells 257–260), setting the
argument base pointer (cell 2) to stack-pointer minus `n` minus 5, setting
the local base pointer (cell 1) to the stack pointer, a jump to `f`'s
global label, and finally the definition of the return-address label; the
simulated block renders to exactly the strings `GenerateAsmCallCommand`
emits. -/
theorem C2_call_protocol (env : String → Int) (f name : String) (n number : Nat)
    (l ag t th : Int) (base : Int → Int) :
    (CallCommandAst f n name number).map render =
      GenerateAsmCallCommand f n name number ∧
    retAddrLabel name number = name ++ "$" ++ toString number ++ "$return-address" ∧
    (execList env (CallCommandAst f n name number)
        (preCallState 0 l ag t th base)).ram 256
      = envSym env (retAddrLabel name number) ∧
    (execList env (CallCommandAst f n name number)
        (preCallState 0 l ag t th base)).ram 257 = l ∧
    (execList env (CallCommandAst f n name number)
        (preCallState 0 l ag t th base)).ram 258 = ag ∧
    (execList env (CallCommandAst f n name number)
        (preCallState 0 l ag t th base)).ram 259 = t ∧
    (execList env (CallCommandAst f n name number)
        (preCallState 0 l ag t th base)).ram 260 = th ∧
    (execList env (CallCommandAst f n name number)
        (preCallState 0 l ag t th base)).ram 2
      = (execList env (CallCommandAst f n name number)
          (preCallState 0 l ag t th base)).ram 0 - n - 5 ∧
    (execList env (CallCommandAst f n name number)
        (preCallState 0 l ag t th base)).ram 1
      = (execList env (CallCommandAst f n name number)
          (preCallState 0 l ag t th base)).ram 0 ∧
    (execList env (CallCommandAst f n name number)
        (preCallState 0 l ag t th base)).ram 0 = 261 ∧
    GenerateAsmCallCommand f n name number =
      (PushConstant (retAddrLabel name number)
        ++ PushFromMemory 1 ++ PushFromMemory 2 ++ PushFromMemory 3
        ++ PushFromMemory 4 ++ FromMemoryToD 0
        ++ AddConstantToD (-(n : Int) - 5) ++ FromDToMemory 2
        ++ FromMemoryToMemory 0 1)
      ++ ["@" ++ f, "0;JMP", "(" ++ retAddrLabel name number ++ ")"] := by
  have h0 : (preCallState 0 l ag t th base).ram 0 = 256 := by
    simp [preCallState]
  obtain ⟨ha, hb, hc, hd, he, hf, hg, hh, _⟩ :=
    call_eff env f name n number (preCallState 0 l ag t th base) 256 h0 (by omega)
  refine ⟨CallCommandAst_render f n name number, rfl, ?_, ?_, ?_, ?_, ?_, ?_, ?_, ?_, ?_⟩
  · exact hd
  · rw [show (257 : Int) = 256 + 1 by norm_num, he]; simp [preCallState]
  · rw [show (258 : Int) = 256 + 2 by norm_num, hf]; simp [preCallState]
  · rw [show (259 : Int) = 256 + 3 by norm_num, hg]; simp [preCallState]
  · rw [show (260 : Int) = 256 + 4 by norm_num, hh]; simp [preCallState]
  · rw [hc, ha]; ring
  · rw [hb, ha]
  · rw [ha]; norm_num
  · simp [GenerateAsmCallCommand, SEGMENT_MAPPING, retAddrLabel, GotoLabel,
      CreateLabel, List.append_assoc]

/-- C3: arithmetically simulating the assembly generated for a call of a
defined procedure that pushes a return value and executes `return` leaves
the stack pointer exactly one slot higher than it was before the call
(before the `n` arguments were pushed the stack pointer was 256; afterwards
it is 257), with the returned value `v` in the new top slot (cell 256), and
leaves the local, argument, this and that base pointers (cells 1–4) equal
to their pre-call values. -/
theorem C3_call_return_balance (env : String → Int) (f name : String)
    (n number k v : Nat) (l ag t th : Int) (base : Int → Int) :
    (execList env (callReturnProgram f n name number k v)
        (preCallState n l ag t th base)).ram 0 = 257 ∧
    (execList env (callReturnProgram f n name number k v)
        (preCallState n l ag t th base)).ram 256 = v ∧
    (execList env (callReturnProgram f n name number k v)
        (preCallState n l ag t th base)).ram 1 = l ∧
    (execList env (callReturnProgram f n name number k v)
        (preCallState n l ag t th base)).ram 2 = ag ∧
    (execList env (callReturnProgram f n name number k v)
        (preCallState n l ag t th base)).ram 3 = t ∧
    (execList env (callReturnProgram f n name number k v)
        (preCallState n l ag t th base)).ram 4 = th := by
  have h0 : (preCallState n l ag t th base).ram 0 = 256 + (n : Int) := by
    simp [preCallState]
  simp only [callReturnProgram, execList_append]
  -- the call block
  obtain ⟨c0, c1, c2, _, cm1, cm2, cm3, cm4, cfr⟩ :=
    call_eff env f name n number (preCallState n l ag t th base) (256 + n) h0
      (by omega)
  generalize hg1 : execList env (CallCommandAst f n name number)
      (preCallState n l ag t th base) = t1
  rw [hg1] at c0 c1 c2 cm1 cm2 cm3 cm4 cfr
  have cm1' : t1.ram (257 + (n : Int)) = l := by
    rw [show (257 : Int) + n = 256 + n + 1 by ring, cm1]; simp [preCallState]
  have cm2' : t1.ram (258 + (n : Int)) = ag := by
    rw [show (258 : Int) + n = 256 + n + 2 by ring, cm2]; simp [preCallState]
  have cm3' : t1.ram (259 + (n : Int)) = t := by
    rw [show (259 : Int) + n = 256 + n + 3 by ring, cm3]; simp [preCallState]
  have cm4' : t1.ram (260 + (n : Int)) = th := by
    rw [show (260 : Int) + n = 256 + n + 4 by ring, cm4]; simp [preCallState]
  -- the function prologue: a label (no state effect) and k zero-pushes
  simp only [FunctionCommandAst, execList_append, CreateLabelAst_eff]
  obtain ⟨f0, ffr⟩ := locals_eff env k t1 (256 + n + 5) c0 (by omega)
  generalize hg2 : execList env (List.replicate k (PushConstantAstN 0)).flatten t1 = t2
  rw [hg2] at f0 ffr
  -- the callee pushes its return value v
  obtain ⟨p0, pv, pfr⟩ :=
    ApplyPushConstantTemplateAst_eff env v t2 (256 + n + 5 + k) f0 (by omega)
  generalize hg3 : execList env (ApplyPushConstantTemplateAst v) t2 = t3
  rw [hg3] at p0 pv pfr
  -- facts about the state entering the return block
  have r1 : t3.ram 1 = 256 + (n : Int) + 5 := by
    rw [pfr 1 (by omega) (by omega), ffr 1 (by omega) (by omega), c1]
  have r2 : t3.ram 2 = 256 := by
    rw [pfr 2 (by omega) (by omega), ffr 2 (by omega) (by omega), c2]; ring
  -- the return block
  obtain ⟨q0, qv, q4, q3, q2, q1, _, _⟩ :=
    return_eff env t3 (256 + n + 5) (256 + n + 5 + k + 1) 256 r1 p0 r2
      (by omega) (by omega) (by omega) (by omega)
  refine ⟨?_, ?_, ?_, ?_, ?_, ?_⟩
  · rw [q0, r2]; norm_num
  · rw [show (256 : Int) = t3.ram 2 by rw [r2], qv]
    have : t3.ram (t3.ram 0 - 1) = v := by
      rw [p0, show (256 : Int) + n + 5 + k + 1 - 1 = 256 + n + 5 + k by ring, pv]
    rw [this]
  · rw [q1]
    have : t3.ram (t3.ram 1 - 4) = l := by
      rw [r1, show (256 : Int) + n + 5 - 4 = 257 + n by ring,
        pfr _ (by omega) (by omega), ffr _ (by omega) (by omega), cm1']
    rw [this]
  · rw [q2]
    have : t3.ram (t3.ram 1 - 3) = ag := by
      rw [r1, show (256 : Int) + n + 5 - 3 = 258 + n by ring,
        pfr _ (by omega) (by omega), ffr _ (by omega) (by omega), cm2']
    rw [this]
  · rw [q3]
    have : t3.ram (t3.ram 1 - 2) = t := by
      rw [r1, show (256 : Int) + n + 5 - 2 = 259 + n by ring,
        pfr _ (by omega) (by omega), ffr _ (by omega) (by omega), cm3']
    rw [this]
  · rw [q4]
    have : t3.ram (t3.ram 1 - 1) = th := by
      rw [r1, show (256 : Int) + n + 5 - 1 = 260 + n by ring,
        pfr _ (by omega) (by omega), ffr _ (by omega) (by omega), cm4']
    rw [this]

/-- Initial state for the comparison simulation: stack pointer 256, the
second-from-top operand `x` at cell 254, the top operand `y` at cell 255. -/
def cmpInitState (x y : Int) : MState :=
  ⟨0, 0, fun a => if a = 0 then 256 else if a = 254 then x else if a = 255 then y else 0⟩

/-- Arithmetic simulation of the generated `JEQ` comparison block at file
"f", position 7: the two operands sit at cells 254 and 255, the stack
pointer drops from 256 to 255, and cell 254 receives all-ones or all-zeros
according to the comparison. -/
theorem cmp_run_JEQ (x y : Int) :
    (run (labelEnv (ComparisonTemplateAst "JEQ" "f" 7)) 25
      (ComparisonTemplateAst "JEQ" "f" 7) 0 (cmpInitState x y)).ram 0 = 255 ∧
    (run (labelEnv (ComparisonTemplateAst "JEQ" "f" 7)) 25
      (ComparisonTemplateAst "JEQ" "f" 7) 0 (cmpInitState x y)).ram 254
      = (if x = y then (-1 : Int) else 0) := by
  have hp0 : (ComparisonTemplateAst "JEQ" "f" 7)[0]? = some (Asm.AS "SP") := by decide
  have hp1 : (ComparisonTemplateAst "JEQ" "f" 7)[1]? = some (Asm.C "M=M-1") := by decide
  have hp2 : (ComparisonTemplateAst "JEQ" "f" 7)[2]? = some (Asm.C "A=M") := by decide
  have hp3 : (ComparisonTemplateAst "JEQ" "f" 7)[3]? = some (Asm.C "D=M") := by decide
  have hp4 : (ComparisonTemplateAst "JEQ" "f" 7)[4]? = some (Asm.C "A=A-1") := by decide
  have hp5 : (ComparisonTemplateAst "JEQ" "f" 7)[5]? = some (Asm.C "D=D-M") := by decide
  have hp6 : (ComparisonTemplateAst "JEQ" "f" 7)[6]? = some (Asm.AS "f$7$branch") := by decide
  have hp7 : (ComparisonTemplateAst "JEQ" "f" 7)[7]? = some (Asm.C "D;JEQ") := by decide
  have hp8 : (ComparisonTemplateAst "JEQ" "f" 7)[8]? = some (Asm.AS "SP") := by decide
  have hp9 : (ComparisonTemplateAst "JEQ" "f" 7)[9]? = some (Asm.C "A=M-1") := by decide
  have hp10 : (ComparisonTemplateAst "JEQ" "f" 7)[10]? = some (Asm.C "M=0") := by decide
  have hp11 : (ComparisonTemplateAst "JEQ" "f" 7)[11]? = some (Asm.AS "f$7$end") := by decide
  have hp12 : (ComparisonTemplateAst "JEQ" "f" 7)[12]? = some (Asm.C "0;JMP") := by decide
  have hp13 : (ComparisonTemplateAst "JEQ" "f" 7)[13]? = some (Asm.L "f$7$branch") := by decide
  have hp14 : (ComparisonTemplateAst "JEQ" "f" 7)[14]? = some (Asm.AS "SP") := by decide
  have hp15 : (ComparisonTemplateAst "JEQ" "f" 7)[15]? = some (Asm.C "A=M-1") := by decide
  have hp16 : (ComparisonTemplateAst "JEQ" "f" 7)[16]? = some (Asm.C "M=0") := by decide
  have hp17 : (ComparisonTemplateAst "JEQ" "f" 7)[17]? = some (Asm.C "M=!M") := by decide
  have hp18 : (ComparisonTemplateAst "JEQ" "f" 7)[18]? = some (Asm.L "f$7$end") := by decide
  have hp19 : (ComparisonTemplateAst "JEQ" "f" 7)[19]? = none := by decide
  have hbr : labelEnv (ComparisonTemplateAst "JEQ" "f" 7) "f$7$branch" = 13 := by decide
  have hend : labelEnv (ComparisonTemplateAst "JEQ" "f" 7) "f$7$end" = 18 := by decide
  by_cases h : y - x = 0
  · have hc : (x = y) := by omega
    simp [run, step, jumpTaken, cmpInitState, updRam, envSym, h, hc, hbr, hend,
      hp0, hp1, hp2, hp3, hp4, hp5, hp6, hp7, hp8, hp9, hp10, hp11, hp12, hp13,
      hp14, hp15, hp16, hp17, hp18, hp19]
  · have hc : ¬ (x = y) := by omega
    simp [run, step, jumpTaken, cmpInitState, updRam, envSym, h, hc, hbr, hend,
      hp0, hp1, hp2, hp3, hp4, hp5, hp6, hp7, hp8, hp9, hp10, hp11, hp12, hp13,
      hp14, hp15, hp16, hp17, hp18, hp19]

/-- Arithmetic simulation of the generated `JLT` comparison block at file
"f", position 7: the two operands sit at cells 254 and 255, the stack
pointer drops from 256 to 255, and cell 254 receives all-ones or all-zeros
according to the comparison. -/
theorem cmp_run_JLT (x y : Int) :
    (run (labelEnv (ComparisonTemplateAst "JLT" "f" 7)) 25
      (ComparisonTemplateAst "JLT" "f" 7) 0 (cmpInitState x y)).ram 0 = 255 ∧
    (run (labelEnv (ComparisonTemplateAst "JLT" "f" 7)) 25
      (ComparisonTemplateAst "JLT" "f" 7) 0 (cmpInitState x y)).ram 254
      = (if y < x then (-1 : Int) else 0) := by
  have hp0 : (ComparisonTemplateAst "JLT" "f" 7)[0]? = some (Asm.AS "SP") := by decide
  have hp1 : (ComparisonTemplateAst "JLT" "f" 7)[1]? = some (Asm.C "M=M-1") := by decide
  have hp2 : (ComparisonTemplateAst "JLT" "f" 7)[2]? = some (Asm.C "A=M") := by decide
  have hp3 : (ComparisonTemplateAst "JLT" "f" 7)[3]? = some (Asm.C "D=M") := by decide
  have hp4 : (ComparisonTemplateAst "JLT" "f" 7)[4]? = some (Asm.C "A=A-1") := by decide
  have hp5 : (ComparisonTemplateAst "JLT" "f" 7)[5]? = some (Asm.C "D=D-M") := by decide
  have hp6 : (ComparisonTemplateAst "JLT" "f" 7)[6]? = some (Asm.AS "f$7$branch") := by decide
  have hp7 : (ComparisonTemplateAst "JLT" "f" 7)[7]? = some (Asm.C "D;JLT") := by decide
  have hp8 : (ComparisonTemplateAst "JLT" "f" 7)[8]? = some (Asm.AS "SP") := by decide
  have hp9 : (ComparisonTemplateAst "JLT" "f" 7)[9]? = some (Asm.C "A=M-1") := by decide
  have hp10 : (ComparisonTemplateAst "JLT" "f" 7)[10]? = some (Asm.C "M=0") := by decide
  have hp11 : (ComparisonTemplateAst "JLT" "f" 7)[11]? = some (Asm.AS "f$7$end") := by decide
  have hp12 : (ComparisonTemplateAst "JLT" "f" 7)[12]? = some (Asm.C "0;JMP") := by decide
  have hp13 : (ComparisonTemplateAst "JLT" "f" 7)[13]? = some (Asm.L "f$7$branch") := by decide
  have hp14 : (ComparisonTemplateAst "JLT" "f" 7)[14]? = some (Asm.AS "SP") := by decide
  have hp15 : (ComparisonTemplateAst "JLT" "f" 7)[15]? = some (Asm.C "A=M-1") := by decide
  have hp16 : (ComparisonTemplateAst "JLT" "f" 7)[16]? = some (Asm.C "M=0") := by decide
  have hp17 : (ComparisonTemplateAst "JLT" "f" 7)[17]? = some (Asm.C "M=!M") := by decide
  have hp18 : (ComparisonTemplateAst "JLT" "f" 7)[18]? = some (Asm.L "f$7$end") := by decide
  have hp19 : (ComparisonTemplateAst "JLT" "f" 7)[19]? = none := by decide
  have hbr : labelEnv (ComparisonTemplateAst "JLT" "f" 7) "f$7$branch" = 13 := by decide
  have hend : labelEnv (ComparisonTemplateAst "JLT" "f" 7) "f$7$end" = 18 := by decide
  by_cases h : y - x < 0
  · have hc : (y < x) := by omega
    simp [run, step, jumpTaken, cmpInitState, updRam, envSym, h, hc, hbr, hend,
      hp0, hp1, hp2, hp3, hp4, hp5, hp6, hp7, hp8, hp9, hp10, hp11, hp12, hp13,
      hp14, hp15, hp16, hp17, hp18, hp19]
  · have hc : ¬ (y < x) := by omega
    simp [run, step, jumpTaken, cmpInitState, updRam, envSym, h, hc, hbr, hend,
      hp0, hp1, hp2, hp3, hp4, hp5, hp6, hp7, hp8, hp9, hp10, hp11, hp12, hp13,
      hp14, hp15, hp16, hp17, hp18, hp19]

/-- Arithmetic simulation of the generated `JGT` comparison block at file
"f", position 7: the two operands sit at cells 254 and 255, the stack
pointer drops from 256 to 255, and cell 254 receives all-ones or all-zeros
according to the comparison. -/
theorem cmp_run_JGT (x y : Int) :
    (run (labelEnv (ComparisonTemplateAst "JGT" "f" 7)) 25
      (ComparisonTemplateAst "JGT" "f" 7) 0 (cmpInitState x y)).ram 0 = 255 ∧
    (run (labelEnv (ComparisonTemplateAst "JGT" "f" 7)) 25
      (ComparisonTemplateAst "JGT" "f" 7) 0 (cmpInitState x y)).ram 254
      = (if x < y then (-1 : Int) else 0) := by
  have hp0 : (ComparisonTemplateAst "JGT" "f" 7)[0]? = some (Asm.AS "SP") := by decide
  have hp1 : (ComparisonTemplateAst "JGT" "f" 7)[1]? = some (Asm.C "M=M-1") := by decide
  have hp2 : (ComparisonTemplateAst "JGT" "f" 7)[2]? = some (Asm.C "A=M") := by decide
  have hp3 : (ComparisonTemplateAst "JGT" "f" 7)[3]? = some (Asm.C "D=M") := by decide
  have hp4 : (ComparisonTemplateAst "JGT" "f" 7)[4]? = some (Asm.C "A=A-1") := by decide
  have hp5 : (ComparisonTemplateAst "JGT" "f" 7)[5]? = some (Asm.C "D=D-M") := by decide
  have hp6 : (ComparisonTemplateAst "JGT" "f" 7)[6]? = some (Asm.AS "f$7$branch") := by decide
  have hp7 : (ComparisonTemplateAst "JGT" "f" 7)[7]? = some (Asm.C "D;JGT") := by decide
  have hp8 : (ComparisonTemplateAst "JGT" "f" 7)[8]? = some (Asm.AS "SP") := by decide
  have hp9 : (ComparisonTemplateAst "JGT" "f" 7)[9]? = some (Asm.C "A=M-1") := by decide
  have hp10 : (ComparisonTemplateAst "JGT" "f" 7)[10]? = some (Asm.C "M=0") := by decide
  have hp11 : (ComparisonTemplateAst "JGT" "f" 7)[11]? = some (Asm.AS "f$7$end") := by decide
  have hp12 : (ComparisonTemplateAst "JGT" "f" 7)[12]? = some (Asm.C "0;JMP") := by decide
  have hp13 : (ComparisonTemplateAst "JGT" "f" 7)[13]? = some (Asm.L "f$7$branch") := by decide
  have hp14 : (ComparisonTemplateAst "JGT" "f" 7)[14]? = some (Asm.AS "SP") := by decide
  have hp15 : (ComparisonTemplateAst "JGT" "f" 7)[15]? = some (Asm.C "A=M-1") := by decide
  have hp16 : (ComparisonTemplateAst "JGT" "f" 7)[16]? = some (Asm.C "M=0") := by decide
  have hp17 : (ComparisonTemplateAst "JGT" "f" 7)[17]? = some (Asm.C "M=!M") := by decide
  have hp18 : (ComparisonTemplateAst "JGT" "f" 7)[18]? = some (Asm.L "f$7$end") := by decide
  have hp19 : (ComparisonTemplateAst "JGT" "f" 7)[19]? = none := by decide
  have hbr : labelEnv (ComparisonTemplateAst "JGT" "f" 7) "f$7$branch" = 13 := by decide
  have hend : labelEnv (ComparisonTemplateAst "JGT" "f" 7) "f$7$end" = 18 := by decide
  by_cases h : 0 < y - x
  · have hc : (x < y) := by omega
    simp [run, step, jumpTaken, cmpInitState, updRam, envSym, h, hc, hbr, hend,
      hp0, hp1, hp2, hp3, hp4, hp5, hp6, hp7, hp8, hp9, hp10, hp11, hp12, hp13,
      hp14, hp15, hp16, hp17, hp18, hp19]
  · have hc : ¬ (x < y) := by omega
    simp [run, step, jumpTaken, cmpInitState, updRam, envSym, h, hc, hbr, hend,
      hp0, hp1, hp2, hp3, hp4, hp5, hp6, hp7, hp8, hp9, hp10, hp11, hp12, hp13,
      hp14, hp15, hp16, hp17, hp18, hp19]

/-- C6: the assembly generated for each comparison instruction branches with
jump-if-zero (`D;JEQ`) for `eq`, jump-if-negative (`D;JLT`) for `gt`, and
jump-if-positive (`D;JGT`) for `lt`; simulating it (the mirrored block,
which renders to exactly the generated strings) writes the boolean result
into the remaining top-of-stack slot — all-ones (−1) for true, all-zeros
for false — and leaves the stack one slot shallower (the stack pointer
drops from 256 to 255, the result landing in cell 254). -/
theorem C6_comparison_codegen :
    (∀ (nm : String) (num : Nat),
      GenerateAsmEqCommand nm num = ApplyComparisonTemplate "JEQ" nm num ∧
      "D;JEQ" ∈ GenerateAsmEqCommand nm num ∧
      (ComparisonTemplateAst "JEQ" nm num).map render = GenerateAsmEqCommand nm num) ∧
    (∀ (nm : String) (num : Nat),
      GenerateAsmGtCommand nm num = ApplyComparisonTemplate "JLT" nm num ∧
      "D;JLT" ∈ GenerateAsmGtCommand nm num ∧
      (ComparisonTemplateAst "JLT" nm num).map render = GenerateAsmGtCommand nm num) ∧
    (∀ (nm : String) (num : Nat),
      GenerateAsmLtCommand nm num = ApplyComparisonTemplate "JGT" nm num ∧
      "D;JGT" ∈ GenerateAsmLtCommand nm num ∧
      (ComparisonTemplateAst "JGT" nm num).map render = GenerateAsmLtCommand nm num) ∧
    (∀ x y : Int,
      (run (labelEnv (ComparisonTemplateAst "JEQ" "f" 7)) 25
        (ComparisonTemplateAst "JEQ" "f" 7) 0 (cmpInitState x y)).ram 0 = 255 ∧
      (run (labelEnv (ComparisonTemplateAst "JEQ" "f" 7)) 25
        (ComparisonTemplateAst "JEQ" "f" 7) 0 (cmpInitState x y)).ram 254
        = (if x = y then (-1 : Int) else 0)) ∧
    (∀ x y : Int,
      (run (labelEnv (ComparisonTemplateAst "JLT" "f" 7)) 25
        (ComparisonTemplateAst "JLT" "f" 7) 0 (cmpInitState x y)).ram 0 = 255 ∧
      (run (labelEnv (ComparisonTemplateAst "JLT" "f" 7)) 25
        (ComparisonTemplateAst "JLT" "f" 7) 0 (cmpInitState x y)).ram 254
        = (if y < x then (-1 : Int) else 0)) ∧
    (∀ x y : Int,
      (run (labelEnv (ComparisonTemplateAst "JGT" "f" 7)) 25
        (ComparisonTemplateAst "JGT" "f" 7) 0 (cmpInitState x y)).ram 0 = 255 ∧
      (run (labelEnv (ComparisonTemplateAst "JGT" "f" 7)) 25
        (ComparisonTemplateAst "JGT" "f" 7) 0 (cmpInitState x y)).ram 254
        = (if x < y then (-1 : Int) else 0)) := by
  refine ⟨fun nm num => ⟨rfl, ?_, ComparisonTemplateAst_render "JEQ" nm num⟩,
    fun nm num => ⟨rfl, ?_, ComparisonTemplateAst_render "JLT" nm num⟩,
    fun nm num => ⟨rfl, ?_, ComparisonTemplateAst_render "JGT" nm num⟩,
    fun x y => cmp_run_JEQ x y, fun x y => cmp_run_JLT x y,
    fun x y => cmp_run_JGT x y⟩ <;>
    simp [GenerateAsmEqCommand, GenerateAsmGtCommand, GenerateAsmLtCommand,
      ApplyComparisonTemplate]

/-- C10: push/pop on the `pointer` segment address cell `3 + i` directly;
cells 3 and 4 are exactly the base pointers used by indirect this/that
push/pop and saved by `call`; hence popping into `pointer 0` changes the
base address every subsequent this-segment access uses. -/
theorem C10_pointer_segment_aliasing :
    (∀ (i : Nat) (nm : String),
      GenerateAsmPushCommand "pointer" i nm
        = some (ApplyPushDirectTemplate (toString (3 + i))) ∧
      GenerateAsmPopCommand "pointer" i nm
        = some (ApplyPopDirectTemplate (toString (3 + i)))) ∧
    (SEGMENT_MAPPING "pointer" = 3 ∧ SEGMENT_MAPPING "this" = 3 ∧
      SEGMENT_MAPPING "that" = 4 ∧ SEGMENT_MAPPING "temp" = 5) ∧
    (∀ (i : Nat) (nm : String),
      GenerateAsmPushCommand "this" i nm = some (ApplyPushIndirectTemplate 3 i) ∧
      GenerateAsmPushCommand "that" i nm = some (ApplyPushIndirectTemplate 4 i) ∧
      GenerateAsmPopCommand "this" i nm = some (ApplyPopIndirectTemplate 3 i) ∧
      GenerateAsmPopCommand "that" i nm = some (ApplyPopIndirectTemplate 4 i)) ∧
    (∀ (env : String → Int) (i : Nat) (s : MState) (m : Int),
      s.ram 0 = m → 16 ≤ m →
      (execList env (ApplyPushDirectTemplateAst (3 + i)) s).ram m = s.ram (3 + i)) ∧
    (∀ (env : String → Int) (i : Nat) (s : MState) (m : Int),
      s.ram 0 = m → 17 ≤ m →
      (execList env (ApplyPopDirectTemplateAst (3 + i)) s).ram (3 + i)
        = s.ram (m - 1)) ∧
    (∀ (env : String → Int) (i : Nat) (s : MState) (m : Int),
      s.ram 0 = m → 16 ≤ m →
      (execList env (ApplyPushIndirectTemplateAst 3 i) s).ram m
          = s.ram (s.ram 3 + i) ∧
      (execList env (ApplyPushIndirectTemplateAst 4 i) s).ram m
          = s.ram (s.ram 4 + i)) ∧
    (∀ (env : String → Int) (f name : String) (n number : Nat) (s : MState) (m : Int),
      s.ram 0 = m → 16 ≤ m →
      (execList env (CallCommandAst f n name number) s).ram (m + 3) = s.ram 3 ∧
      (execList env (CallCommandAst f n name number) s).ram (m + 4) = s.ram 4) ∧
    (∀ (env : String → Int) (s : MState) (m : Int) (j : Nat),
      s.ram 0 = m → 17 ≤ m → s.ram (m - 1) + j ≠ 0 → s.ram (m - 1) + j ≠ 3 →
      (execList env (ApplyPushIndirectTemplateAst 3 j)
          (execList env (ApplyPopDirectTemplateAst 3) s)).ram (m - 1)
        = s.ram (s.ram (m - 1) + j)) := by
  refine ⟨?_, ⟨rfl, rfl, rfl, rfl⟩, ?_, ?_, ?_, ?_, ?_, ?_⟩
  · intro i nm
    constructor <;> simp [GenerateAsmPushCommand, GenerateAsmPopCommand, SEGMENT_MAPPING]
  · intro i nm
    refine ⟨?_, ?_, ?_, ?_⟩ <;>
      simp [GenerateAsmPushCommand, GenerateAsmPopCommand, SEGMENT_MAPPING]
  · intro env i s m h0 hm
    exact (ApplyPushDirectTemplateAst_eff env (3 + i) s m h0 (by omega)).2.1
  · intro env i s m h0 hm
    exact (ApplyPopDirectTemplateAst_eff env (3 + i) s m h0 (by omega)
      (by positivity)).1
  · intro env i s m h0 hm
    exact ⟨(ApplyPushIndirectTemplateAst_eff env 3 i s m h0 (by omega)).2.1,
      (ApplyPushIndirectTemplateAst_eff env 4 i s m h0 (by omega)).2.1⟩
  · intro env f name n number s m h0 hm
    obtain ⟨_, _, _, _, _, _, h3, h4, _⟩ := call_eff env f name n number s m h0 hm
    exact ⟨h3, h4⟩
  · intro env s m j h0 hm hj0 hj3
    obtain ⟨pa, pb, pc⟩ :=
      ApplyPopDirectTemplateAst_eff env 3 s m h0 (by omega) (by norm_num)
    generalize hg : execList env (ApplyPopDirectTemplateAst 3) s = t at pa pb pc
    obtain ⟨_, hv, _⟩ :=
      ApplyPushIndirectTemplateAst_eff env 3 j t (m - 1) pb (by omega)
    rw [hv, pa, pc (s.ram (m - 1) + j) hj0 hj3]

/-- Witness for C10: popping the value 20 into `pointer 0` and then pushing
`this 5` reads memory cell 25 = 20 + 5, through the freshly written
this-base pointer. -/
theorem C10_pointer_segment_aliasing_witness :
    (cmpInitState 4 20).ram 0 = 256 ∧ (17 : Int) ≤ 256 ∧
    (cmpInitState 4 20).ram (256 - 1) + (5 : Nat) ≠ 0 ∧
    (cmpInitState 4 20).ram (256 - 1) + (5 : Nat) ≠ 3 ∧
    (execList (fun _ => 0) (ApplyPushIndirectTemplateAst 3 5)
        (execList (fun _ => 0) (ApplyPopDirectTemplateAst 3) (cmpInitState 4 20))).ram
        (256 - 1)
      = (cmpInitState 4 20).ram ((cmpInitState 4 20).ram (256 - 1) + (5 : Nat)) :=
  ⟨by decide, by decide, by decide, by decide,
    C10_pointer_segment_aliasing.2.2.2.2.2.2.2 (fun _ => 0) (cmpInitState 4 20) 256 5
      (by decide) (by decide) (by decide) (by decide)⟩

/-!
## Parser inversion machinery
-/

theorem tryAll_cases (ps : List (String → Option Command)) (l : String) (c : Command)
    (h : tryAll ps l = some c) : ∃ p ∈ ps, p l = some c := by
  induction ps with
  | nil => simp [tryAll] at h
  | cons p ps ih =>
    simp only [tryAll] at h
    rcases hp : p l with _ | c2
    · rw [hp] at h
      obtain ⟨q, hq, hql⟩ := ih h
      exact ⟨q, by simp [hq], hql⟩
    · rw [hp] at h
      obtain rfl : c2 = c := by simpa using h
      exact ⟨p, by simp, hp⟩

theorem ParseSimpleCommand_out (l w : String) (c0 c : Command)
    (h : ParseSimpleCommand l w c0 = some c) : c = c0 ∧ l = w := by
  unfold ParseSimpleCommand at h
  split at h
  · rename_i hw
    obtain rfl : c0 = c := by simpa using h
    exact ⟨rfl, hw⟩
  · simp at h

theorem ParsePushCommand_out (l : String) (c : Command)
    (h : ParsePushCommand l = some c) :
    ∃ s i, c = .push s i ∧ s ∈ SEGMENT_NAMES := by
  unfold ParsePushCommand at h
  split at h
  · split at h
    · rename_i hcond
      exact ⟨_, _, by simpa [Eq.comm] using h, hcond.2.1⟩
    · simp at h
  · simp at h

theorem ParsePopCommand_out (l : String) (c : Command)
    (h : ParsePopCommand l = some c) :
    ∃ s i, c = .pop s i ∧ s ∈ SEGMENT_NAMES ∧ s ≠ "constant" := by
  unfold ParsePopCommand at h
  split at h
  · split at h
    · rename_i hcond
      exact ⟨_, _, by simpa [Eq.comm] using h, hcond.2.1, hcond.2.2.1⟩
    · simp at h
  · simp at h

theorem ParseGenericLabelCommand_out (l w : String) (ctor : String → Command)
    (c : Command) (h : ParseGenericLabelCommand l w ctor = some c) :
    ∃ s, c = ctor s ∧ reMatchLabel s := by
  unfold ParseGenericLabelCommand at h
  split at h
  · split at h
    · rename_i hcond
      exact ⟨_, by simpa [Eq.comm] using h, hcond.2⟩
    · simp at h
  · simp at h

theorem ParseGenericFunctionCommand_out (l w : String) (ctor : String → Nat → Command)
    (c : Command) (h : ParseGenericFunctionCommand l w ctor = some (some c)) :
    ∃ s k, c = ctor s k := by
  unfold ParseGenericFunctionCommand at h
  split at h
  · split at h
    · split at h
      · exact ⟨_, _, by simpa [Eq.comm] using h⟩
      · simp at h
    · simp at h
  · simp at h

/-- Inversion for `ParseCommand`: the shape of every command the parser can
return, including the validation facts the grammar enforces. -/
theorem ParseCommand_shape (line : String) (c : Command)
    (h : ParseCommand line = some c) :
    c = .add ∨ c = .sub ∨ c = .neg ∨ c = .eq ∨ c = .gt ∨ c = .lt ∨
    c = .and ∨ c = .or ∨ c = .not ∨
    (∃ s i, c = .push s i ∧ s ∈ SEGMENT_NAMES) ∨
    (∃ s i, c = .pop s i ∧ s ∈ SEGMENT_NAMES ∧ s ≠ "constant") ∨
    (∃ s, c = .label s) ∨ (∃ s, c = .goto s) ∨ (∃ s, c = .ifGoto s) ∨
    (∃ s k, c = .function s k) ∨ (∃ s k, c = .call s k) ∨
    c = .ret ∨ c = .empty ∨ c = .error (TrimProgramLine line) := by
  simp only [ParseCommand] at h
  rcases htry : tryAll [ParseAddCommand, ParseSubCommand, ParseNegCommand,
      ParseEqCommand, ParseGtCommand, ParseLtCommand, ParseAndCommand,
      ParseOrCommand, ParseNotCommand, ParsePushCommand, ParsePopCommand,
      ParseLabelCommand, ParseGotoCommand, ParseIfGotoCommand]
      (TrimProgramLine line) with _ | c1
  case some =>
    rw [htry] at h
    obtain rfl : c1 = c := by simpa using h
    obtain ⟨p, hp, hpl⟩ := tryAll_cases _ _ _ htry
    simp only [List.mem_cons, List.not_mem_nil, or_false] at hp
    rcases hp with rfl | rfl | rfl | rfl | rfl | rfl | rfl | rfl | rfl | rfl |
      rfl | rfl | rfl | rfl
    · exact Or.inl (ParseSimpleCommand_out _ _ _ _ hpl).1
    · exact Or.inr (Or.inl (ParseSimpleCommand_out _ _ _ _ hpl).1)
    · exact Or.inr (Or.inr (Or.inl (ParseSimpleCommand_out _ _ _ _ hpl).1))
    · refine Or.inr (Or.inr (Or.inr (Or.inl ?_)))
      exact (ParseSimpleCommand_out _ _ _ _ hpl).1
    · refine Or.inr (Or.inr (Or.inr (Or.inr (Or.inl ?_))))
      exact (ParseSimpleCommand_out _ _ _ _ hpl).1
    · refine Or.inr (Or.inr (Or.inr (Or.inr (Or.inr (Or.inl ?_)))))
      exact (ParseSimpleCommand_out _ _ _ _ hpl).1
    · refine Or.inr (Or.inr (Or.inr (Or.inr (Or.inr (Or.inr (Or.inl ?_))))))
      exact (ParseSimpleCommand_out _ _ _ _ hpl).1
    · refine Or.inr (Or.inr (Or.inr (Or.inr (Or.inr (Or.inr (Or.inr (Or.inl ?_)))))))
      exact (ParseSimpleCommand_out _ _ _ _ hpl).1
    · refine Or.inr (Or.inr (Or.inr (Or.inr (Or.inr (Or.inr (Or.inr (Or.inr
        (Or.inl ?_))))))))
      exact (ParseSimpleCommand_out _ _ _ _ hpl).1
    · refine Or.inr (Or.inr (Or.inr (Or.inr (Or.inr (Or.inr (Or.inr (Or.inr (Or.inr
        (Or.inl ?_)))))))))
      obtain ⟨s, i, rfl, hs⟩ := ParsePushCommand_out _ _ hpl
      exact ⟨s, i, rfl, hs⟩
    · refine Or.inr (Or.inr (Or.inr (Or.inr (Or.inr (Or.inr (Or.inr (Or.inr (Or.inr
        (Or.inr (Or.inl ?_))))))))))
      obtain ⟨s, i, rfl, hs, hsc⟩ := ParsePopCommand_out _ _ hpl
      exact ⟨s, i, rfl, hs, hsc⟩
    · refine Or.inr (Or.inr (Or.inr (Or.inr (Or.inr (Or.inr (Or.inr (Or.inr (Or.inr
        (Or.inr (Or.inr (Or.inl ?_)))))))))))
      obtain ⟨s, rfl, _⟩ := ParseGenericLabelCommand_out _ _ _ _ hpl
      exact ⟨s, rfl⟩
    · refine Or.inr (Or.inr (Or.inr (Or.inr (Or.inr (Or.inr (Or.inr (Or.inr (Or.inr
        (Or.inr (Or.inr (Or.inr (Or.inl ?_))))))))))))
      obtain ⟨s, rfl, _⟩ := ParseGenericLabelCommand_out _ _ _ _ hpl
      exact ⟨s, rfl⟩
    · refine Or.inr (Or.inr (Or.inr (Or.inr (Or.inr (Or.inr (Or.inr (Or.inr (Or.inr
        (Or.inr (Or.inr (Or.inr (Or.inr (Or.inl ?_)))))))))))))
      obtain ⟨s, rfl, _⟩ := ParseGenericLabelCommand_out _ _ _ _ hpl
      exact ⟨s, rfl⟩
  case none =>
    rw [htry] at h
    rcases hf : ParseFunctionCommand (TrimProgramLine line) with _ | oc
    · rw [hf] at h; simp at h
    · rw [hf] at h
      rcases oc with _ | c2
      · rcases hg : ParseCallCommand (TrimProgramLine line) with _ | oc2
        · rw [hg] at h; simp at h
        · rw [hg] at h
          rcases oc2 with _ | c3
          · rcases htr : tryAll [ParseReturnCommand, ParseEmptyCommand]
                (TrimProgramLine line) with _ | c4
            · rw [htr] at h
              simp only [ParseErrorCommand] at h
              obtain rfl : Command.error (TrimProgramLine line) = c := by simpa using h
              simp
            · rw [htr] at h
              obtain rfl : c4 = c := by simpa using h
              obtain ⟨p, hp, hpl⟩ := tryAll_cases _ _ _ htr
              simp only [List.mem_cons, List.not_mem_nil, or_false] at hp
              rcases hp with rfl | rfl
              · unfold ParseReturnCommand at hpl
                split at hpl
                · obtain rfl : Command.ret = c4 := by simpa using hpl
                  simp
                · simp at hpl
              · have := (ParseSimpleCommand_out _ _ _ _ hpl).1
                subst this; simp
          · obtain rfl : c3 = c := by simpa using h
            obtain ⟨s, k, rfl⟩ := ParseGenericFunctionCommand_out _ _ _ _ hg
            refine Or.inr (Or.inr (Or.inr (Or.inr (Or.inr (Or.inr (Or.inr (Or.inr
              (Or.inr (Or.inr (Or.inr (Or.inr (Or.inr (Or.inr (Or.inr
              (Or.inl ?_)))))))))))))))
            exact ⟨s, k, rfl⟩
      · obtain rfl : c2 = c := by simpa using h
        obtain ⟨s, k, rfl⟩ := ParseGenericFunctionCommand_out _ _ _ _ hf
        refine Or.inr (Or.inr (Or.inr (Or.inr (Or.inr (Or.inr (Or.inr (Or.inr
          (Or.inr (Or.inr (Or.inr (Or.inr (Or.inr (Or.inr
          (Or.inl ?_))))))))))))))
        exact ⟨s, k, rfl⟩

/-- C1 (code bug in the source): parsing is not total.  A three-token line
whose first token is `function` or `call` and whose third token starts with
a digit but is not all digits makes `int(parts[2])` raise `ValueError`
(modelled by `none`), because `_RE_NUMBER` is matched only as a prefix
before the conversion; a third token that does not start with a digit is
handled gracefully as a malformed line. -/
theorem C1_parse_crash_on_function_numeral :
    ParseCommand "function f 1x" = none ∧
    ParseCommand "call g 2y" = none ∧
    tokens (TrimProgramLine "function f 1x") = ["function", "f", "1x"] ∧
    reMatchNumber "1x" = true ∧ pyInt "1x" = none ∧
    ParseCommand "function f x1" = some (.error "function f x1") := by
  decide

/-- Counterexample to C9 as stated: the malformed variant carries the
comment-stripped, whitespace-trimmed text, not the original untrimmed
line. -/
theorem C9_counterexample :
    ParseCommand "  bad line  // c" = some (Command.error "bad line") ∧
    "bad line" ≠ "  bad line  // c" := by decide

/-- C9 (amended): whenever `ParseCommand` returns the malformed variant, the
carried text is exactly the comment-stripped and whitespace-trimmed form of
the input line. -/
theorem C9_error_carries_trimmed_line (line t : String)
    (h : ParseCommand line = some (.error t)) : t = TrimProgramLine line := by
  rcases ParseCommand_shape line _ h with h1 | h1 | h1 | h1 | h1 | h1 | h1 | h1 | h1 |
    ⟨s, i, h1, _⟩ | ⟨s, i, h1, _, _⟩ | ⟨s, h1⟩ | ⟨s, h1⟩ | ⟨s, h1⟩ |
    ⟨s, k, h1⟩ | ⟨s, k, h1⟩ | h1 | h1 | h1 <;> simp_all

/-- Witness for the amended C9 at a concrete malformed line. -/
theorem C9_error_carries_trimmed_line_witness :
    ParseCommand "  bad line  // c" = some (.error "bad line") ∧
    "bad line" = TrimProgramLine "  bad line  // c" :=
  ⟨by decide, C9_error_carries_trimmed_line "  bad line  // c" "bad line" (by decide)⟩

/-- The label-identifier grammar of the spec,
`[A-Za-z_.:][A-Za-z0-9_.:]*`, required to match the whole token.
Modelled from the spec: claim C8 asserts the parser accepts the second token
exactly when it matches this grammar in full. -/
def specLabelGrammar (s : String) : Bool :=
  match s.data with
  | [] => false
  | c :: rest =>
    isLabelStart c && rest.all (fun d => d.isAlphanum || d = '_' || d = '.' || d = ':')

/-- Counterexample to C8 as stated: `label foo-bar` parses as a label
command carrying `foo-bar`, although `foo-bar` does not match the
label-identifier grammar in full (Python `re.match` anchors only at the
start, so only a prefix needs to match). -/
theorem C8_counterexample :
    ParseCommand "label foo-bar" = some (Command.label "foo-bar") ∧
    specLabelGrammar "foo-bar" = false := by decide

/-- C8 (amended): for every two-token line whose first token is `label`,
`goto`, or `if-goto`, `ParseCommand` returns the corresponding variant
exactly when the second token has a *prefix* matching the label-identifier
grammar — that is, when its first character lies in `[A-Za-z_.:]`
(`reMatchLabel`) — carrying the full second token; otherwise the line is
malformed. -/
theorem C8_two_token_label_commands :
    (∀ line t, tokens (TrimProgramLine line) = ["label", t] →
      ParseCommand line = some (if reMatchLabel t then Command.label t
        else Command.error (TrimProgramLine line))) ∧
    (∀ line t, tokens (TrimProgramLine line) = ["goto", t] →
      ParseCommand line = some (if reMatchLabel t then Command.goto t
        else Command.error (TrimProgramLine line))) ∧
    (∀ line t, tokens (TrimProgramLine line) = ["if-goto", t] →
      ParseCommand line = some (if reMatchLabel t then Command.ifGoto t
        else Command.error (TrimProgramLine line))) := by
  refine ⟨?_, ?_, ?_⟩
  · intro line t h
    have h1 : TrimProgramLine line ≠ "add" := by
      intro he; rw [he] at h
      rw [show tokens "add" = ["add"] from by decide] at h
      simp at h
    have h2 : TrimProgramLine line ≠ "sub" := by
      intro he; rw [he] at h
      rw [show tokens "sub" = ["sub"] from by decide] at h
      simp at h
    have h3 : TrimProgramLine line ≠ "neg" := by
      intro he; rw [he] at h
      rw [show tokens "neg" = ["neg"] from by decide] at h
      simp at h
    have h4 : TrimProgramLine line ≠ "eq" := by
      intro he; rw [he] at h
      rw [show tokens "eq" = ["eq"] from by decide] at h
      simp at h
    have h5 : TrimProgramLine line ≠ "gt" := by
      intro he; rw [he] at h
      rw [show tokens "gt" = ["gt"] from by decide] at h
      simp at h
    have h6 : TrimProgramLine line ≠ "lt" := by
      intro he; rw [he] at h
      rw [show tokens "lt" = ["lt"] from by decide] at h
      simp at h
    have h7 : TrimProgramLine line ≠ "and" := by
      intro he; rw [he] at h
      rw [show tokens "and" = ["and"] from by decide] at h
      simp at h
    have h8 : TrimProgramLine line ≠ "or" := by
      intro he; rw [he] at h
      rw [show tokens "or" = ["or"] from by decide] at h
      simp at h
    have h9 : TrimProgramLine line ≠ "not" := by
      intro he; rw [he] at h
      rw [show tokens "not" = ["not"] from by decide] at h
      simp at h
    have h10 : TrimProgramLine line ≠ "return" := by
      intro he; rw [he] at h
      rw [show tokens "return" = ["return"] from by decide] at h
      simp at h
    have h11 : TrimProgramLine line ≠ "" := by
      intro he; rw [he] at h
      rw [show tokens "" = [] from by decide] at h
      simp at h
    by_cases hr : reMatchLabel t
    · simp [ParseCommand, tryAll, ParseAddCommand, ParseSubCommand,
        ParseNegCommand, ParseEqCommand, ParseGtCommand, ParseLtCommand,
        ParseAndCommand, ParseOrCommand, ParseNotCommand, ParseSimpleCommand,
        ParsePushCommand, ParsePopCommand, ParseLabelCommand, ParseGotoCommand,
        ParseIfGotoCommand, ParseGenericLabelCommand, ParseFunctionCommand,
        ParseCallCommand, ParseGenericFunctionCommand, ParseReturnCommand,
        ParseEmptyCommand, ParseErrorCommand,
        h, hr, h1, h2, h3, h4, h5, h6, h7, h8, h9, h10, h11]
    · simp [ParseCommand, tryAll, ParseAddCommand, ParseSubCommand,
        ParseNegCommand, ParseEqCommand, ParseGtCommand, ParseLtCommand,
        ParseAndCommand, ParseOrCommand, ParseNotCommand, ParseSimpleCommand,
        ParsePushCommand, ParsePopCommand, ParseLabelCommand, ParseGotoCommand,
        ParseIfGotoCommand, ParseGenericLabelCommand, ParseFunctionCommand,
        ParseCallCommand, ParseGenericFunctionCommand, ParseReturnCommand,
        ParseEmptyCommand, ParseErrorCommand,
        h, hr, h1, h2, h3, h4, h5, h6, h7, h8, h9, h10, h11]
  · intro line t h
    have h1 : TrimProgramLine line ≠ "add" := by
      intro he; rw [he] at h
      rw [show tokens "add" = ["add"] from by decide] at h
      simp at h
    have h2 : TrimProgramLine line ≠ "sub" := by
      intro he; rw [he] at h
      rw [show tokens "sub" = ["sub"] from by decide] at h
      simp at h
    have h3 : TrimProgramLine line ≠ "neg" := by
      intro he; rw [he] at h
      rw [show tokens "neg" = ["neg"] from by decide] at h
      simp at h
    have h4 : TrimProgramLine line ≠ "eq" := by
      intro he; rw [he] at h
      rw [show tokens "eq" = ["eq"] from by decide] at h
      simp at h
    have h5 : TrimProgramLine line ≠ "gt" := by
      intro he; rw [he] at h
      rw [show tokens "gt" = ["gt"] from by decide] at h
      simp at h
    have h6 : TrimProgramLine line ≠ "lt" := by
      intro he; rw [he] at h
      rw [show tokens "lt" = ["lt"] from by decide] at h
      simp at h
    have h7 : TrimProgramLine line ≠ "and" := by
      intro he; rw [he] at h
      rw [show tokens "and" = ["and"] from by decide] at h
      simp at h
    have h8 : TrimProgramLine line ≠ "or" := by
      intro he; rw [he] at h
      rw [show tokens "or" = ["or"] from by decide] at h
      simp at h
    have h9 : TrimProgramLine line ≠ "not" := by
      intro he; rw [he] at h
      rw [show tokens "not" = ["not"] from by decide] at h
      simp at h
    have h10 : TrimProgramLine line ≠ "return" := by
      intro he; rw [he] at h
      rw [show tokens "return" = ["return"] from by decide] at h
      simp at h
    have h11 : TrimProgramLine line ≠ "" := by
      intro he; rw [he] at h
      rw [show tokens "" = [] from by decide] at h
      simp at h
    by_cases hr : reMatchLabel t
    · simp [ParseCommand, tryAll, ParseAddCommand, ParseSubCommand,
        ParseNegCommand, ParseEqCommand, ParseGtCommand, ParseLtCommand,
        ParseAndCommand, ParseOrCommand, ParseNotCommand, ParseSimpleCommand,
        ParsePushCommand, ParsePopCommand, ParseLabelCommand, ParseGotoCommand,
        ParseIfGotoCommand, ParseGenericLabelCommand, ParseFunctionCommand,
        ParseCallCommand, ParseGenericFunctionCommand, ParseReturnCommand,
        ParseEmptyCommand, ParseErrorCommand,
        h, hr, h1, h2, h3, h4, h5, h6, h7, h8, h9, h10, h11]
    · simp [ParseCommand, tryAll, ParseAddCommand, ParseSubCommand,
        ParseNegCommand, ParseEqCommand, ParseGtCommand, ParseLtCommand,
        ParseAndCommand, ParseOrCommand, ParseNotCommand, ParseSimpleCommand,
        ParsePushCommand, ParsePopCommand, ParseLabelCommand, ParseGotoCommand,
        ParseIfGotoCommand, ParseGenericLabelCommand, ParseFunctionCommand,
        ParseCallCommand, ParseGenericFunctionCommand, ParseReturnCommand,
        ParseEmptyCommand, ParseErrorCommand,
        h, hr, h1, h2, h3, h4, h5, h6, h7, h8, h9, h10, h11]
  · intro line t h
    have h1 : TrimProgramLine line ≠ "add" := by
      intro he; rw [he] at h
      rw [show tokens "add" = ["add"] from by decide] at h
      simp at h
    have h2 : TrimProgramLine line ≠ "sub" := by
      intro he; rw [he] at h
      rw [show tokens "sub" = ["sub"] from by decide] at h
      simp at h
    have h3 : TrimProgramLine line ≠ "neg" := by
      intro he; rw [he] at h
      rw [show tokens "neg" = ["neg"] from by decide] at h
      simp at h
    have h4 : TrimProgramLine line ≠ "eq" := by
      intro he; rw [he] at h
      rw [show tokens "eq" = ["eq"] from by decide] at h
      simp at h
    have h5 : TrimProgramLine line ≠ "gt" := by
      intro he; rw [he] at h
      rw [show tokens "gt" = ["gt"] from by decide] at h
      simp at h
    have h6 : TrimProgramLine line ≠ "lt" := by
      intro he; rw [he] at h
      rw [show tokens "lt" = ["lt"] from by decide] at h
      simp at h
    have h7 : TrimProgramLine line ≠ "and" := by
      intro he; rw [he] at h
      rw [show tokens "and" = ["and"] from by decide] at h
      simp at h
    have h8 : TrimProgramLine line ≠ "or" := by
      intro he; rw [he] at h
      rw [show tokens "or" = ["or"] from by decide] at h
      simp at h
    have h9 : TrimProgramLine line ≠ "not" := by
      intro he; rw [he] at h
      rw [show tokens "not" = ["not"] from by decide] at h
      simp at h
    have h10 : TrimProgramLine line ≠ "return" := by
      intro he; rw [he] at h
      rw [show tokens "return" = ["return"] from by decide] at h
      simp at h
    have h11 : TrimProgramLine line ≠ "" := by
      intro he; rw [he] at h
      rw [show tokens "" = [] from by decide] at h
      simp at h
    by_cases hr : reMatchLabel t
    · simp [ParseCommand, tryAll, ParseAddCommand, ParseSubCommand,
        ParseNegCommand, ParseEqCommand, ParseGtCommand, ParseLtCommand,
        ParseAndCommand, ParseOrCommand, ParseNotCommand, ParseSimpleCommand,
        ParsePushCommand, ParsePopCommand, ParseLabelCommand, ParseGotoCommand,
        ParseIfGotoCommand, ParseGenericLabelCommand, ParseFunctionCommand,
        ParseCallCommand, ParseGenericFunctionCommand, ParseReturnCommand,
        ParseEmptyCommand, ParseErrorCommand,
        h, hr, h1, h2, h3, h4, h5, h6, h7, h8, h9, h10, h11]
    · simp [ParseCommand, tryAll, ParseAddCommand, ParseSubCommand,
        ParseNegCommand, ParseEqCommand, ParseGtCommand, ParseLtCommand,
        ParseAndCommand, ParseOrCommand, ParseNotCommand, ParseSimpleCommand,
        ParsePushCommand, ParsePopCommand, ParseLabelCommand, ParseGotoCommand,
        ParseIfGotoCommand, ParseGenericLabelCommand, ParseFunctionCommand,
        ParseCallCommand, ParseGenericFunctionCommand, ParseReturnCommand,
        ParseEmptyCommand, ParseErrorCommand,
        h, hr, h1, h2, h3, h4, h5, h6, h7, h8, h9, h10, h11]

/-- Witness for the amended C8: a valid label, and one accepted only by
prefix matching. -/
theorem C8_two_token_label_commands_witness :
    tokens (TrimProgramLine "goto loop") = ["goto", "loop"] ∧
    ParseCommand "goto loop" = some (if reMatchLabel "loop" then Command.goto "loop"
      else Command.error (TrimProgramLine "goto loop")) ∧
    tokens (TrimProgramLine "label 9x") = ["label", "9x"] ∧
    ParseCommand "label 9x" = some (if reMatchLabel "9x" then Command.label "9x"
      else Command.error (TrimProgramLine "label 9x")) :=
  ⟨by decide, C8_two_token_label_commands.2.1 "goto loop" "loop" (by decide),
   by decide, C8_two_token_label_commands.1 "label 9x" "9x" (by decide)⟩

/-!
## Assembler and linker claims (C4, C5)
-/

/-- The diagnostics a program's raw lines should produce: one entry per line
whose parse is the malformed variant, tagged with the program name and the
1-based line number. -/
def lineDiags (programName : String) : Nat → List String → List String
  | _, [] => []
  | i, l :: rest =>
    match ParseCommand l with
    | some (.error t) =>
      (programName ++ "." ++ toString (i + 1) ++ ": " ++ t)
        :: lineDiags programName (i + 1) rest
    | _ => lineDiags programName (i + 1) rest

theorem diagsFrom_eq_lineDiags (name : String) :
    ∀ (lines : List String) (cmds : List Command) (i : Nat),
      mapOpt ParseCommand lines = some cmds →
      diagsFrom name i cmds = lineDiags name i lines := by
  intro lines
  induction lines with
  | nil =>
    intro cmds i h
    obtain rfl : ([] : List Command) = cmds := by simpa [mapOpt] using h
    rfl
  | cons l rest ih =>
    intro cmds i h
    unfold mapOpt at h
    rcases hp : ParseCommand l with _ | c
    · rw [hp] at h; simp at h
    · rw [hp] at h
      rcases hr : mapOpt ParseCommand rest with _ | cs
      · rw [hr] at h; simp at h
      · rw [hr] at h
        obtain rfl : c :: cs = cmds := by simpa using h
        have htail := ih cs (i + 1) hr
        cases c <;> simp [diagsFrom, lineDiags, hp, htail]

theorem lineDiags_nil_iff (name : String) :
    ∀ (lines : List String) (i : Nat),
      lineDiags name i lines = [] ↔
        ∀ l ∈ lines, ∀ t, ParseCommand l ≠ some (.error t) := by
  intro lines
  induction lines with
  | nil => simp [lineDiags]
  | cons l rest ih =>
    intro i
    rcases hp : ParseCommand l with _ | c
    · simp [lineDiags, hp, ih (i + 1)]
    · cases c <;> simp [lineDiags, hp, ih (i + 1)]

theorem mapOpt_isSome (f : α → Option β) :
    ∀ l : List α, (∀ a ∈ l, (f a).isSome) → ∃ bs, mapOpt f l = some bs := by
  intro l
  induction l with
  | nil => exact fun _ => ⟨[], rfl⟩
  | cons a l ih =>
    intro h
    rcases hfa : f a with _ | b
    · have := h a (by simp)
      rw [hfa] at this; simp at this
    · obtain ⟨bs, hbs⟩ := ih fun x hx => h x (by simp [hx])
      exact ⟨b :: bs, by simp [mapOpt, hfa, hbs]⟩

theorem mapOpt_mem (f : α → Option β) :
    ∀ (l : List α) (bs : List β), mapOpt f l = some bs →
      ∀ b ∈ bs, ∃ a ∈ l, f a = some b := by
  intro l
  induction l with
  | nil =>
    intro bs h b hb
    obtain rfl : ([] : List β) = bs := by simpa [mapOpt] using h
    simp at hb
  | cons a l ih =>
    intro bs h b hb
    unfold mapOpt at h
    rcases hfa : f a with _ | b0
    · rw [hfa] at h; simp at h
    · rw [hfa] at h
      rcases hr : mapOpt f l with _ | bs0
      · rw [hr] at h; simp at h
      · rw [hr] at h
        obtain rfl : b0 :: bs0 = bs := by simpa using h
        rcases List.mem_cons.1 hb with rfl | hb0
        · exact ⟨a, by simp, hfa⟩
        · obtain ⟨a', ha', hfa'⟩ := ih bs0 hr b hb0
          exact ⟨a', by simp [ha'], hfa'⟩

theorem mem_zipWith {α β γ : Type} {f : α → β → γ} :
    ∀ (as : List α) (bs : List β) (c : γ), c ∈ List.zipWith f as bs →
      ∃ a ∈ as, ∃ b ∈ bs, c = f a b := by
  intro as
  induction as with
  | nil => simp
  | cons a as ih =>
    intro bs c hc
    cases bs with
    | nil => simp at hc
    | cons b bs =>
      simp only [List.zipWith_cons_cons, List.mem_cons] at hc
      rcases hc with rfl | hc
      · exact ⟨a, by simp, b, by simp, rfl⟩
      · obtain ⟨a', ha, b', hb, rfl⟩ := ih bs c hc
        exact ⟨a', by simp [ha], b', by simp [hb], rfl⟩

theorem DecorateCommands_mem (cmds : List Command) (nm : String)
    (d : Command × String × String × Nat) (hd : d ∈ DecorateCommands cmds nm) :
    d.1 ∈ cmds := by
  unfold DecorateCommands at hd
  obtain ⟨p, hp, i, _, rfl⟩ := mem_zipWith _ _ _ hd
  exact (List.of_mem_zip hp).1

/-- Every command the parser can produce, other than the malformed variant,
admits assembly code generation (the parser's segment validation is exactly
what the push/pop generators require). -/
theorem GenerateAsm_isSome_of_parsed (line : String) (c : Command) (nm fn : String)
    (k : Nat) (h : ParseCommand line = some c) (hne : ∀ t, c ≠ .error t) :
    (GenerateAsm c nm fn k).isSome := by
  rcases ParseCommand_shape line c h with rfl | rfl | rfl | rfl | rfl | rfl | rfl |
    rfl | rfl | ⟨s, i, rfl, hs⟩ | ⟨s, i, rfl, hs, hsc⟩ | ⟨s, rfl⟩ | ⟨s, rfl⟩ |
    ⟨s, rfl⟩ | ⟨s, k2, rfl⟩ | ⟨s, k2, rfl⟩ | rfl | rfl | h1
  all_goals first
    | exact absurd h1 (hne _)
    | (simp only [SEGMENT_NAMES, List.mem_cons, List.not_mem_nil, or_false] at hs
       rcases hs with rfl | rfl | rfl | rfl | rfl | rfl | rfl | rfl <;>
         simp_all [GenerateAsm, GenerateAsmPushCommand, GenerateAsmPopCommand])
    | simp [GenerateAsm]

/-- C5: assembling a single program (with no line crashing the parser, the
C1 defect aside) fails exactly when at least one line parses as malformed;
on failure the error message is `"Error: "` followed by one diagnostic per
malformed line — each carrying the program name and the 1-based line number
— joined by newlines; with zero malformed lines assembly always succeeds,
whatever the number and kind of well-formed instructions. -/
theorem C5_assemble_fails_iff_malformed (lines : List String) (name : String)
    (hok : ∀ l ∈ lines, (ParseCommand l).isSome) :
    ((∃ e, AssembleProgram lines name = some (.error e)) ↔
      (∃ l ∈ lines, ∃ t, ParseCommand l = some (.error t))) ∧
    (∀ e, AssembleProgram lines name = some (.error e) →
      e = "Error: " ++ joinSep "\n" (lineDiags name 0 lines)) ∧
    ((∀ l ∈ lines, ∀ t, ParseCommand l ≠ some (.error t)) →
      ∃ out, AssembleProgram lines name = some (.ok out)) := by
  obtain ⟨cmds, hcmds⟩ := mapOpt_isSome ParseCommand lines hok
  have hdiag := diagsFrom_eq_lineDiags name lines cmds 0 hcmds
  have hpp : ParseProgram lines name =
      (if lineDiags name 0 lines = [] then some (.ok cmds)
       else some (.error ("Error: " ++ joinSep "\n" (lineDiags name 0 lines)))) := by
    unfold ParseProgram
    rw [hcmds]
    simp only [hdiag]
  by_cases hnil : lineDiags name 0 lines = []
  · have hwf : ∀ l ∈ lines, ∀ t, ParseCommand l ≠ some (.error t) :=
      (lineDiags_nil_iff name lines 0).1 hnil
    have hgen : ∀ d ∈ DecorateCommands cmds name,
        ((fun d : Command × String × String × Nat =>
          GenerateAsm d.1 d.2.1 d.2.2.1 d.2.2.2) d).isSome := by
      intro d hd
      obtain ⟨l, hl, hlc⟩ := mapOpt_mem _ _ _ hcmds d.1 (DecorateCommands_mem cmds name d hd)
      exact GenerateAsm_isSome_of_parsed l d.1 _ _ _ hlc
        (fun t hct => hwf l hl t (hct ▸ hlc))
    obtain ⟨chunks, hch⟩ := mapOpt_isSome _ _ hgen
    have hres : AssembleProgram lines name = some (.ok (FlattenAsm chunks)) := by
      unfold AssembleProgram
      rw [hpp, if_pos hnil]
      simp [hch]
    refine ⟨?_, ?_, fun _ => ⟨_, hres⟩⟩
    · constructor
      · rintro ⟨e, he⟩
        rw [hres] at he
        simp at he
      · rintro ⟨l, hl, t, ht⟩
        exact absurd ht (hwf l hl t)
    · intro e he
      rw [hres] at he
      simp at he
  · have hres : AssembleProgram lines name =
        some (.error ("Error: " ++ joinSep "\n" (lineDiags name 0 lines))) := by
      unfold AssembleProgram
      rw [hpp, if_neg hnil]
    refine ⟨?_, ?_, ?_⟩
    · refine ⟨fun _ => ?_, fun _ => ⟨_, hres⟩⟩
      by_contra hno
      push_neg at hno
      exact hnil ((lineDiags_nil_iff name lines 0).2
        (fun l hl t => by simpa using hno l hl t))
    · intro e he
      rw [hres] at he
      simpa [Eq.comm] using he
    · intro hwf'
      exact absurd ((lineDiags_nil_iff name lines 0).2 hwf') hnil

/-- Witness for C5: a program with one good line and one malformed line
fails with exactly the malformed line's diagnostic; the same program without
the malformed line assembles. -/
theorem C5_assemble_fails_iff_malformed_witness :
    (∀ l ∈ (["add", "xx"] : List String), (ParseCommand l).isSome) ∧
    (((∃ e, AssembleProgram ["add", "xx"] "P" = some (.error e)) ↔
      (∃ l ∈ (["add", "xx"] : List String), ∃ t, ParseCommand l = some (.error t))) ∧
    (∀ e, AssembleProgram ["add", "xx"] "P" = some (.error e) →
      e = "Error: " ++ joinSep "\n" (lineDiags "P" 0 ["add", "xx"])) ∧
    ((∀ l ∈ (["add", "xx"] : List String), ∀ t, ParseCommand l ≠ some (.error t)) →
      ∃ out, AssembleProgram ["add", "xx"] "P" = some (.ok out))) :=
  ⟨by decide, C5_assemble_fails_iff_malformed ["add", "xx"] "P" (by decide)⟩

/-- Counterexample to C4 as stated: linking two programs that each contain a
malformed line reports only the first program's diagnostic; the second
program's diagnostic (which assembling it alone would produce) appears
nowhere in the result, so the programs are not assembled independently. -/
theorem C4_counterexample :
    LinkPrograms [("A", ["xx"]), ("B", ["yy"])] = some (.error "Error: A.1: xx") ∧
    AssembleProgram ["yy"] "B" = some (.error "Error: B.1: yy") ∧
    ¬ List.IsInfix ("B.1: yy".data) ("Error: A.1: xx".data) := by
  refine ⟨rfl, rfl, by decide⟩

/-- C4 (amended): linking assembles the programs sequentially in input
order; on success the outputs are concatenated in input order; the first
program that fails to assemble aborts the link with exactly that program's
error (later programs are not assembled and contribute no diagnostics); and
the whole link operation never succeeds when at least one program fails to
assemble. -/
theorem C4_link_sequential :
    LinkPrograms [] = some (.ok []) ∧
    (∀ (nm : String) (ls : List String) (rest : List (String × List String))
        (out : List String),
      AssembleProgram ls nm = some (.ok out) →
      LinkPrograms ((nm, ls) :: rest)
        = (LinkPrograms rest).map (fun r =>
            match r with
            | .ok more => .ok (out ++ more)
            | .error e => .error e)) ∧
    (∀ (nm : String) (ls : List String) (rest : List (String × List String))
        (e : String),
      AssembleProgram ls nm = some (.error e) →
      LinkPrograms ((nm, ls) :: rest) = some (.error e)) ∧
    (∀ programs : List (String × List String),
      (∃ p ∈ programs, ∀ out, AssembleProgram p.2 p.1 ≠ some (.ok out)) →
      ∀ out, LinkPrograms programs ≠ some (.ok out)) := by
  refine ⟨rfl, ?_, ?_, ?_⟩
  · intro nm ls rest out h
    simp only [LinkPrograms]
    rw [h]
    rcases hrest : LinkPrograms rest with _ | r
    · rfl
    · rcases r with e | more <;> rfl
  · intro nm ls rest e h
    simp only [LinkPrograms]
    rw [h]
  · intro programs
    induction programs with
    | nil => rintro ⟨p, hp, _⟩; simp at hp
    | cons q rest ih =>
      rintro ⟨p, hp, hfail⟩ out hok
      rcases q with ⟨nm, ls⟩
      simp only [LinkPrograms] at hok
      rcases ha : AssembleProgram ls nm with _ | r
      · rw [ha] at hok; simp at hok
      · rw [ha] at hok
        rcases r with e | asmOut
        · simp at hok
        · rcases hl : LinkPrograms rest with _ | r2
          · rw [hl] at hok; simp at hok
          · rw [hl] at hok
            rcases r2 with e2 | more
            · simp at hok
            · rcases List.mem_cons.1 hp with rfl | hp0
              · exact hfail asmOut ha
              · exact ih ⟨p, hp0, hfail⟩ more hl

/-- Witness for the amended C4 at concrete programs: the first program's
failure aborts the link with that error. -/
theorem C4_link_sequential_witness :
    AssembleProgram ["xx"] "A" = some (.error "Error: A.1: xx") ∧
    LinkPrograms [("A", ["xx"]), ("B", ["yy"])] = some (.error "Error: A.1: xx") :=
  ⟨rfl, C4_link_sequential.2.2.1 "A" ["xx"] [("B", ["yy"])] "Error: A.1: xx" rfl⟩

/-!
## Decimal-numeral facts (for label uniqueness, C7)
-/

/-- Decimal digit characters of `n`, most significant first; the
fuel-free counterpart of `Nat.toDigitsCore` at base 10. -/
def natDigits (n : Nat) : List Char :=
  if h : n / 10 = 0 then [Nat.digitChar (n % 10)]
  else natDigits (n / 10) ++ [Nat.digitChar (n % 10)]
termination_by n
decreasing_by omega

theorem toDigitsCore_eq_natDigits :
    ∀ (fuel n : Nat) (ds : List Char), n < fuel →
      Nat.toDigitsCore 10 fuel n ds = natDigits n ++ ds := by
  intro fuel
  induction fuel with
  | zero => intro n ds h; omega
  | succ f ih =>
    intro n ds h
    rw [Nat.toDigitsCore]
    by_cases h10 : n / 10 = 0
    · simp only [h10, if_true]
      rw [natDigits]
      simp [h10]
    · simp only [h10, if_false]
      rw [ih (n / 10) (Nat.digitChar (n % 10) :: ds) (by omega)]
      conv_rhs => rw [natDigits]
      simp [h10]

theorem repr_data_eq_natDigits (n : Nat) : (Nat.repr n).data = natDigits n := by
  unfold Nat.repr Nat.toDigits
  rw [toDigitsCore_eq_natDigits (n + 1) n [] (by omega)]
  simp [List.asString]

theorem natDigits_all_digits (n : Nat) : ∀ c ∈ natDigits n, c.isDigit := by
  induction n using Nat.strong_induction_on with
  | _ n ih =>
    rw [natDigits]
    by_cases h10 : n / 10 = 0
    · simp only [h10, dif_pos, List.mem_singleton]
      rintro c rfl
      exact (by decide : ∀ m, m < 10 → (Nat.digitChar m).isDigit = true) _
        (Nat.mod_lt _ (by omega))
    · simp only [h10, dif_neg, not_false_iff, List.mem_append, List.mem_singleton]
      rintro c (hc | rfl)
      · exact ih (n / 10) (by omega) c hc
      · exact (by decide : ∀ m, m < 10 → (Nat.digitChar m).isDigit = true) _
          (Nat.mod_lt _ (by omega))

theorem natDigits_ne_nil (n : Nat) : natDigits n ≠ [] := by
  rw [natDigits]; split <;> simp

theorem natDigits_cases (n : Nat) :
    (n < 10 ∧ natDigits n = [Nat.digitChar (n % 10)]) ∨
    (10 ≤ n ∧ natDigits n = natDigits (n / 10) ++ [Nat.digitChar (n % 10)]) := by
  by_cases h : n / 10 = 0
  · left
    refine ⟨by omega, ?_⟩
    rw [natDigits]; simp [h]
  · right
    refine ⟨by omega, ?_⟩
    rw [natDigits]; simp [h]

theorem natDigits_inj : ∀ m n, natDigits m = natDigits n → m = n := by
  intro m
  induction m using Nat.strong_induction_on with
  | _ m ih =>
    intro n h
    have hdc : ∀ a, a < 10 → ∀ b, b < 10 → Nat.digitChar a = Nat.digitChar b → a = b := by
      decide
    rcases natDigits_cases m with ⟨hm, em⟩ | ⟨hm, em⟩ <;>
      rcases natDigits_cases n with ⟨hn, en⟩ | ⟨hn, en⟩ <;> rw [em, en] at h
    · have := hdc (m % 10) (by omega) (n % 10) (by omega) (by simpa using h)
      omega
    · exfalso
      have hlen := congrArg List.length h
      have := natDigits_ne_nil (n / 10)
      simp at hlen
      cases hne : natDigits (n / 10) with
      | nil => exact this hne
      | cons a l => rw [hne] at hlen; simp at hlen
    · exfalso
      have hlen := congrArg List.length h
      have := natDigits_ne_nil (m / 10)
      simp at hlen
      cases hne : natDigits (m / 10) with
      | nil => exact this hne
      | cons a l => rw [hne] at hlen; simp at hlen
    · have hrev := congrArg List.reverse h
      simp only [List.reverse_append, List.reverse_singleton, List.singleton_append,
        List.cons.injEq] at hrev
      obtain ⟨hd, htl⟩ := hrev
      have h1 : m / 10 = n / 10 :=
        ih (m / 10) (by omega) (n / 10) (List.reverse_injective htl)
      have h2 : m % 10 = n % 10 :=
        hdc (m % 10) (by omega) (n % 10) (by omega) hd
      omega

theorem toString_nat_data (n : Nat) : (toString n).data = natDigits n :=
  repr_data_eq_natDigits n

theorem string_mk_data (s : String) : String.mk s.data = s := rfl

/-- Cancellation for digit-prefixed lists: if two lists each made of digits
are followed by `'$'`-headed tails and the concatenations agree, the digit
parts and the tails agree. -/
theorem digits_dollar_append_inj :
    ∀ (A B u v : List Char), (∀ c ∈ A, c.isDigit) → (∀ c ∈ B, c.isDigit) →
      A ++ '$' :: u = B ++ '$' :: v → A = B ∧ u = v := by
  intro A
  induction A with
  | nil =>
    intro B u v _ hB h
    cases B with
    | nil => simpa using h
    | cons b bs =>
      simp only [List.nil_append, List.cons_append, List.cons.injEq] at h
      have hd : b.isDigit := hB b (by simp)
      rw [← h.1] at hd
      simp at hd
  | cons a as ih =>
    intro B u v hA hB h
    cases B with
    | nil =>
      simp only [List.cons_append, List.nil_append, List.cons.injEq] at h
      have hd : a.isDigit := hA a (by simp)
      rw [h.1] at hd
      simp at hd
    | cons b bs =>
      simp only [List.cons_append, List.cons.injEq] at h
      obtain ⟨rfl, h2⟩ := h
      obtain ⟨rfl, rfl⟩ := ih bs u v (fun c hc => hA c (by simp [hc]))
        (fun c hc => hB c (by simp [hc])) h2
      exact ⟨rfl, rfl⟩

/-- Injectivity of the minted-label shape
`prefix ++ '$' :: digits-of-i ++ '$' :: tail` at the character level. -/
theorem dollar_digits_inj (nd : List Char) (i j : Nat) (u v : List Char)
    (h : nd ++ '$' :: ((toString i).data ++ '$' :: u)
       = nd ++ '$' :: ((toString j).data ++ '$' :: v)) : i = j ∧ u = v := by
  have h2 := List.append_cancel_left h
  simp only [List.cons.injEq, true_and] at h2
  obtain ⟨hij, huv⟩ := digits_dollar_append_inj _ _ _ _
    (by rw [toString_nat_data]; exact natDigits_all_digits i)
    (by rw [toString_nat_data]; exact natDigits_all_digits j) h2
  refine ⟨natDigits_inj i j ?_, huv⟩
  rw [← toString_nat_data, ← toString_nat_data, hij]

/-- Extracts the label name from an assembly label-definition line `(x)`. -/
def labelDef (s : String) : Option String :=
  match s.data with
  | '(' :: rest => some ⟨rest.dropLast⟩
  | _ => none

/-- Extracts the symbol from an assembly `@x` line. -/
def atRef (s : String) : Option String :=
  match s.data with
  | '@' :: rest => some ⟨rest⟩
  | _ => none

theorem labelDef_paren (b : String) : labelDef ("(" ++ b ++ ")") = some b := by
  simp only [labelDef]
  rw [show ("(" ++ b ++ ")").data = '(' :: (b.data ++ [')']) from by
    simp [String.data_append]]
  simp [string_mk_data]

theorem labelDef_at (b : String) : labelDef ("@" ++ b) = none := by
  simp only [labelDef]
  rw [show ("@" ++ b).data = '@' :: b.data from by simp [String.data_append]]
  rfl

theorem labelDef_jump (b : String) : labelDef ("D;" ++ b) = none := by
  simp only [labelDef]
  rw [show ("D;" ++ b).data = 'D' :: ';' :: b.data from by simp [String.data_append]]
  rfl

theorem atRef_at (b : String) : atRef ("@" ++ b) = some b := by
  simp only [atRef]
  rw [show ("@" ++ b).data = '@' :: b.data from by simp [String.data_append]]
  simp [string_mk_data]

theorem atRef_paren (b : String) : atRef ("(" ++ b ++ ")") = none := by
  simp only [atRef]
  rw [show ("(" ++ b ++ ")").data = '(' :: (b.data ++ [')']) from by
    simp [String.data_append]]
  rfl

theorem atRef_jump (b : String) : atRef ("D;" ++ b) = none := by
  simp only [atRef]
  rw [show ("D;" ++ b).data = 'D' :: ';' :: b.data from by simp [String.data_append]]
  rfl

/-- C7: comparison code generation mints exactly two label names, both
derived only from the file name and position (`name$i$branch` and
`name$i$end`); the only `@`-references besides the fixed `SP` register are
those same two labels; the two labels of one occurrence differ; and two
occurrences at different positions in the same file share no label name.
(The generator is a pure function of its arguments by construction — the
embedding is stateless, like the Python code, which reads no mutable
state — so two calls with the same pair produce identical output.) -/
theorem C7_comparison_label_uniqueness :
    (∀ (op name : String) (i : Nat),
      (ApplyComparisonTemplate op name i).filterMap labelDef =
        [name ++ "$" ++ toString i ++ "$branch",
         name ++ "$" ++ toString i ++ "$end"]) ∧
    (∀ (op name : String) (i : Nat),
      (ApplyComparisonTemplate op name i).filterMap atRef =
        ["SP", name ++ "$" ++ toString i ++ "$branch",
         "SP", name ++ "$" ++ toString i ++ "$end", "SP"]) ∧
    (∀ (name : String) (i : Nat),
      name ++ "$" ++ toString i ++ "$branch" ≠ name ++ "$" ++ toString i ++ "$end") ∧
    (∀ (name : String) (i j : Nat), i ≠ j →
      name ++ "$" ++ toString i ++ "$branch" ≠ name ++ "$" ++ toString j ++ "$branch" ∧
      name ++ "$" ++ toString i ++ "$branch" ≠ name ++ "$" ++ toString j ++ "$end" ∧
      name ++ "$" ++ toString i ++ "$end" ≠ name ++ "$" ++ toString j ++ "$branch" ∧
      name ++ "$" ++ toString i ++ "$end" ≠ name ++ "$" ++ toString j ++ "$end") := by
  have hdata : ∀ (name : String) (i : Nat) (s : String),
      (name ++ "$" ++ toString i ++ s).data
        = name.data ++ '$' :: ((toString i).data ++ s.data) := by
    intro name i s
    simp [String.data_append]
  have key : ∀ (name : String) (i j : Nat) (u v : List Char),
      name ++ "$" ++ toString i ++ String.mk ('$' :: u)
        = name ++ "$" ++ toString j ++ String.mk ('$' :: v) → i = j ∧ u = v := by
    intro name i j u v h
    have hd := congrArg String.data h
    rw [hdata, hdata] at hd
    exact dollar_digits_inj name.data i j u v hd
  refine ⟨?_, ?_, ?_, ?_⟩
  · intro op name i
    simp [ApplyComparisonTemplate, List.filterMap_cons, labelDef_paren, labelDef_at,
      labelDef_jump, show labelDef "@SP" = none from by decide,
      show labelDef "M=M-1" = none from by decide,
      show labelDef "A=M" = none from by decide,
      show labelDef "D=M" = none from by decide,
      show labelDef "A=A-1" = none from by decide,
      show labelDef "D=D-M" = none from by decide,
      show labelDef "A=M-1" = none from by decide,
      show labelDef "M=0" = none from by decide,
      show labelDef "0;JMP" = none from by decide,
      show labelDef "M=!M" = none from by decide]
  · intro op name i
    simp [ApplyComparisonTemplate, List.filterMap_cons, atRef_paren, atRef_at,
      atRef_jump, show atRef "@SP" = some "SP" from by decide,
      show atRef "M=M-1" = none from by decide,
      show atRef "A=M" = none from by decide,
      show atRef "D=M" = none from by decide,
      show atRef "A=A-1" = none from by decide,
      show atRef "D=D-M" = none from by decide,
      show atRef "A=M-1" = none from by decide,
      show atRef "M=0" = none from by decide,
      show atRef "0;JMP" = none from by decide,
      show atRef "M=!M" = none from by decide]
  · intro name i h
    have := (key name i i "branch".data "end".data (by
      simpa [string_mk_data] using h)).2
    simp at this
  · intro name i j hij
    refine ⟨?_, ?_, ?_, ?_⟩ <;> intro h
    · exact hij (key name i j "branch".data "branch".data (by
        simpa [string_mk_data] using h)).1
    · exact hij (key name i j "branch".data "end".data (by
        simpa [string_mk_data] using h)).1
    · exact hij (key name i j "end".data "branch".data (by
        simpa [string_mk_data] using h)).1
    · exact hij (key name i j "end".data "end".data (by
        simpa [string_mk_data] using h)).1

/-- Witness for C7 at concrete positions 0 and 1 in file `f`. -/
theorem C7_comparison_label_uniqueness_witness :
    (0 : Nat) ≠ 1 ∧
    ("f" ++ "$" ++ toString (0 : Nat) ++ "$branch"
      ≠ "f" ++ "$" ++ toString (1 : Nat) ++ "$branch") ∧
    ("f" ++ "$" ++ toString (0 : Nat) ++ "$branch"
      ≠ "f" ++ "$" ++ toString (1 : Nat) ++ "$end") ∧
    ("f" ++ "$" ++ toString (0 : Nat) ++ "$end"
      ≠ "f" ++ "$" ++ toString (1 : Nat) ++ "$branch") ∧
    ("f" ++ "$" ++ toString (0 : Nat) ++ "$end"
      ≠ "f" ++ "$" ++ toString (1 : Nat) ++ "$end") :=
  ⟨by decide, (C7_comparison_label_uniqueness.2.2.2 "f" 0 1 (by decide)).1,
   (C7_comparison_label_uniqueness.2.2.2 "f" 0 1 (by decide)).2.1,
   (C7_comparison_label_uniqueness.2.2.2 "f" 0 1 (by decide)).2.2.1,
   (C7_comparison_label_uniqueness.2.2.2 "f" 0 1 (by decide)).2.2.2⟩

end HackVM
